import Mathlib

/-!
Verification development for the OpenPGP packet parser of `g10/parse-packet.c`
(GnuPG, 1998 vintage).

The byte stream is modelled as a `List Nat` of byte values together with a
mode flag mirroring the iobuf block / partial-block states.  All parsing
functions below are direct shallow embeddings of the corresponding C
functions; machine integers are modelled as `Nat`, with explicit `% 256`
truncation at the one place where a wider value is stored into a `byte`
(the subpacket-area length prefix in `parse_signature`).

`iobuf.c`, `mpi/mpicoder.c`, `packet.h`, `cipher.h` and `errors.h` are not
part of the sources; where their behaviour or constants are needed they are
modelled from the specification and marked as such.  Diagnostic output
(`list_mode` printing) is omitted: `list_mode` is `0` unless
`set_packet_list_mode` is called, and no claim concerns it.
-/

set_option maxRecDepth 100000

namespace GnuPG

/-! ### Constants

Packet type tags, algorithm identifiers and error codes.  Modelled from the
spec: these live in `packet.h`, `cipher.h` and `errors.h`, which are not in
the sources; the tag values are the standard OpenPGP ones (the spec's
scenarios pin type 11 = plaintext and type 13 = user id, and the legacy
escape uses the public-subkey slot), and for the error codes only
distinctness and positivity matter to the spec. -/

def PKT_NONE : Nat := 0
def PKT_PUBKEY_ENC : Nat := 1
def PKT_SIGNATURE : Nat := 2
def PKT_SYMKEY_ENC : Nat := 3
def PKT_ONEPASS_SIG : Nat := 4
def PKT_SECRET_CERT : Nat := 5
def PKT_PUBLIC_CERT : Nat := 6
def PKT_SECKEY_SUBCERT : Nat := 7
def PKT_COMPRESSED : Nat := 8
def PKT_ENCRYPTED : Nat := 9
def PKT_PLAINTEXT : Nat := 11
def PKT_RING_TRUST : Nat := 12
def PKT_USER_ID : Nat := 13
def PKT_PUBKEY_SUBCERT : Nat := 14
def PKT_OLD_COMMENT : Nat := 16
def PKT_COMMENT : Nat := 61

def G10ERR_GENERAL : Int := 1
def G10ERR_UNKNOWN_PACKET : Int := 2
def G10ERR_INVALID_PACKET : Int := 14
def G10ERR_WRITE_FILE : Int := 16
def G10ERR_READ_FILE : Int := 17

/-- Modelled from the spec: public-key algorithm identifiers (`cipher.h` is
not in the sources).  RSA is 1..3, ElGamal 16 and 20, DSA 17. -/
def PUBKEY_ALGO_RSA : Nat := 1
def PUBKEY_ALGO_DSA : Nat := 17
def PUBKEY_ALGO_ELGAMAL : Nat := 16

def is_RSA (a : Nat) : Bool := a = 1 || a = 2 || a = 3
def is_ELGAMAL (a : Nat) : Bool := a = 16 || a = 20

/-- Modelled from the spec: the Blowfish-160 cipher identifier named by the
secret-key protection quirk (`cipher.h` is not in the sources). -/
def CIPHER_ALGO_BLOWFISH160 : Nat := 42
def DIGEST_ALGO_MD5 : Nat := 1
def DIGEST_ALGO_RMD160 : Nat := 3

def SIGSUBPKT_SIG_CREATED : Int := 2
def SIGSUBPKT_ISSUER : Int := 16
/-- Modelled from the spec: negative sentinel request types used by the
listing mode of `parse_sig_subpkt`. -/
def SIGSUBPKT_LIST_HASHED : Int := -1
def SIGSUBPKT_LIST_UNHASHED : Int := -2

/-! ### The byte source

Modelled from the spec (section "Byte source"): `iobuf.c` is not part of
the sources.  A source is the list of remaining bytes plus the mode the
packet framing has put it in.  In partial-block mode each sub-chunk begins
with a length byte in 224..254 meaning `2^(b-224)` bytes, and any other
length byte introduces a final definite chunk (one of the remaining
new-format length forms), after which the source reports end-of-stream for
this packet. -/

inductive SrcMode where
  | normal : SrcMode
  | block : SrcMode
  | partBlock (chunk : Nat) (final : Bool) : SrcMode
  deriving Repr, DecidableEq

structure Src where
  data : List Nat
  mode : SrcMode
  deriving Repr, DecidableEq

/-- Pop one byte in the current chunk (partial-block bookkeeping already
resolved). -/
def srcPop (d : List Nat) (m : SrcMode) : Option Nat × Src :=
  match d with
  | [] => (none, ⟨[], m⟩)
  | b :: t =>
    match m with
    | .normal => (some b, ⟨t, .normal⟩)
    | .block => (some b, ⟨t, .block⟩)
    | .partBlock c f => (some b, ⟨t, .partBlock (c - 1) f⟩)

/-- The `iobuf_get` interface: next byte or end-of-stream.  In
partial-block mode a chunk boundary consumes the next chunk-length byte(s)
first (modelled from the spec). -/
def iobuf_get (s : Src) : Option Nat × Src :=
  match s.mode with
  | .partBlock 0 true => (none, s)
  | .partBlock 0 false =>
    match s.data with
    | [] => (none, s)
    | b :: t =>
      if 224 ≤ b ∧ b ≤ 254 then
        srcPop t (.partBlock (2 ^ (b - 224)) false)
      else if b < 192 then
        if b = 0 then (none, ⟨t, .partBlock 0 true⟩)
        else srcPop t (.partBlock b true)
      else if b < 224 then
        match t with
        | [] => (none, ⟨[], .partBlock 0 true⟩)
        | b2 :: t2 => srcPop t2 (.partBlock ((b - 192) * 256 + b2 + 192) true)
      else -- b = 255: five-byte final length
        match t with
        | b1 :: b2 :: b3 :: b4 :: t4 =>
          srcPop t4 (.partBlock (((b1 * 256 + b2) * 256 + b3) * 256 + b4) true)
        | _ => (none, ⟨[], .partBlock 0 true⟩)
  | _ => srcPop s.data s.mode

/-- The `iobuf_get_noeof` macro; modelled from the spec's `get_or_fail`.
End-of-stream yields `0`; every theorem below supplies enough bytes for
this default never to be exercised. -/
def iobuf_get_noeof (s : Src) : Nat × Src :=
  match iobuf_get s with
  | (some b, s') => (b, s')
  | (none, s') => (0, s')

def iobuf_in_block_mode (s : Src) : Bool :=
  match s.mode with
  | .normal => false
  | _ => true

def iobuf_set_block_mode (s : Src) : Src := ⟨s.data, .block⟩

/-- `iobuf_set_partial_block_mode` in the source; the argument is the
initial chunk length. -/
def iobuf_set_partblock_mode (s : Src) (len : Nat) : Src :=
  ⟨s.data, .partBlock len false⟩

/-- The `iobuf_read` interface: up to `n` bytes; returns the count actually
read, the bytes, and the advanced source.  A count of `0` with `n > 0`
corresponds to the C function's `-1` end-of-stream result. -/
def iobuf_read : Nat → Src → Nat × List Nat × Src
  | 0, s => (0, [], s)
  | n + 1, s =>
    match iobuf_get s with
    | (none, s') => (0, [], s')
    | (some b, s') =>
      let r := iobuf_read n s'
      (r.1 + 1, b :: r.2.1, r.2.2)

/-- `read_16` of the source: two `iobuf_get_noeof` bytes, high first. -/
def read_16 (s : Src) : Nat × Src :=
  let a := iobuf_get_noeof s
  let b := iobuf_get_noeof a.2
  ((a.1 <<< 8) ||| b.1, b.2)

/-- `read_32` of the source: four `iobuf_get_noeof` bytes, high first. -/
def read_32 (s : Src) : Nat × Src :=
  let a := iobuf_get_noeof s
  let b := iobuf_get_noeof a.2
  let c := iobuf_get_noeof b.2
  let d := iobuf_get_noeof c.2
  ((((a.1 <<< 24) ||| (b.1 <<< 16)) ||| (c.1 <<< 8)) ||| d.1, d.2)

/-- `buffer_to_u32` of the source, on a byte list. -/
def buffer_to_u32 (p : List Nat) : Nat :=
  (((p.getD 0 0 <<< 24) ||| (p.getD 1 0 <<< 16)) ||| (p.getD 2 0 <<< 8)) ||| p.getD 3 0

/-- The bounded byte-copy loops of the body parsers,
`for(i=0; i < count && pktlen; i++, pktlen--) ... = iobuf_get_noeof(inp);`:
returns the bytes read, the final `pktlen` counter and the source. -/
def readCounted : Nat → Nat → Src → List Nat × Nat × Src
  | 0, pl, s => ([], pl, s)
  | _ + 1, 0, s => ([], 0, s)
  | c + 1, pl + 1, s =>
    let b := iobuf_get_noeof s
    let r := readCounted c pl b.2
    (b.1 :: r.1, r.2.1, r.2.2)

/-- Consume until `iobuf_get` reports end-of-stream (the block-mode arm of
`skip_rest` and `copy_packet`).  The fuel is an upper bound on the number
of `iobuf_get` calls; callers pass `data.length + 1`. -/
def drain : Nat → Src → Src
  | 0, s => s
  | fuel + 1, s =>
    match iobuf_get s with
    | (none, s') => s'
    | (some _, s') => drain fuel s'

/-- `skip_rest`: realign at the next packet boundary. -/
def skip_rest (pktlen : Nat) (s : Src) : Src :=
  if iobuf_in_block_mode s then drain (s.data.length + 1) s
  else ⟨s.data.drop pktlen, s.mode⟩

/-- `skip_packet` with `list_mode = 0` reduces to `skip_rest`. -/
def skip_packet (pktlen : Nat) (s : Src) : Src := skip_rest pktlen s

/-! ### Elementary reduction lemmas for the normal mode -/

@[simp] theorem iobuf_get_normal_cons (b : Nat) (t : List Nat) :
    iobuf_get ⟨b :: t, .normal⟩ = (some b, ⟨t, .normal⟩) := rfl

@[simp] theorem iobuf_get_normal_nil :
    iobuf_get ⟨[], .normal⟩ = (none, ⟨[], .normal⟩) := rfl

@[simp] theorem iobuf_get_noeof_normal_cons (b : Nat) (t : List Nat) :
    iobuf_get_noeof ⟨b :: t, .normal⟩ = (b, ⟨t, .normal⟩) := rfl

@[simp] theorem read_16_normal (b0 b1 : Nat) (t : List Nat) :
    read_16 ⟨b0 :: b1 :: t, .normal⟩ = ((b0 <<< 8) ||| b1, ⟨t, .normal⟩) := rfl

@[simp] theorem read_32_normal (b0 b1 b2 b3 : Nat) (t : List Nat) :
    read_32 ⟨b0 :: b1 :: b2 :: b3 :: t, .normal⟩ =
      ((((b0 <<< 24) ||| (b1 <<< 16)) ||| (b2 <<< 8)) ||| b3, ⟨t, .normal⟩) := rfl

@[simp] theorem iobuf_in_block_mode_normal (d : List Nat) :
    iobuf_in_block_mode ⟨d, .normal⟩ = false := rfl

@[simp] theorem skip_rest_normal (pktlen : Nat) (d : List Nat) :
    skip_rest pktlen ⟨d, .normal⟩ = ⟨d.drop pktlen, .normal⟩ := rfl

theorem iobuf_read_normal (n : Nat) (d : List Nat) :
    iobuf_read n ⟨d, .normal⟩ =
      (min n d.length, d.take n, ⟨d.drop n, .normal⟩) := by
  induction n generalizing d with
  | zero => simp [iobuf_read]
  | succ n ih =>
    cases d with
    | nil => simp [iobuf_read]
    | cons b t =>
      simp [iobuf_read, ih t, Nat.succ_min_succ]

theorem readCounted_normal (c : Nat) :
    ∀ (pl : Nat) (d : List Nat), c ≤ pl → c ≤ d.length →
      readCounted c pl ⟨d, .normal⟩ = (d.take c, pl - c, ⟨d.drop c, .normal⟩) := by
  induction c with
  | zero => intro pl d _ _; simp [readCounted]
  | succ c ih =>
    intro pl d hpl hd
    match pl, d with
    | pl + 1, b :: t =>
      have h1 : c ≤ pl := by omega
      have h2 : c ≤ t.length := by simpa using hd
      simp [readCounted, ih pl t h1 h2]

/-- The final counter of a bounded copy loop, with no assumption on the
stream: the loop runs `min c pl` times. -/
theorem readCounted_counter (c : Nat) :
    ∀ (pl : Nat) (s : Src), (readCounted c pl s).2.1 = pl - min c pl := by
  induction c with
  | zero => intro pl s; simp [readCounted]
  | succ c ih =>
    intro pl s
    match pl with
    | 0 => simp [readCounted]
    | pl + 1 =>
      simp only [readCounted, ih pl]
      omega

/-! ### Bitwise-or as big-endian accumulation

The C code accumulates multi-byte values with `(x << 8) | byte`; when the
byte is below 256 this is ordinary positional arithmetic. -/

theorem shiftLeft_lor_eq_add (a b k : Nat) (hb : b < 2 ^ k) :
    (a <<< k) ||| b = a <<< k + b := by
  apply Nat.eq_of_testBit_eq
  intro i
  rw [Nat.testBit_lor, Nat.testBit_shiftLeft, Nat.shiftLeft_eq]
  rcases Nat.lt_or_ge i k with hik | hik
  · obtain ⟨j, rfl⟩ : ∃ j, k = i + (j + 1) := ⟨k - i - 1, by omega⟩
    have key : (a * 2 ^ (i + (j + 1)) + b).testBit i = b.testBit i := by
      have h1 : a * 2 ^ (i + (j + 1)) + b = 2 ^ i * (a * 2 ^ j * 2) + b := by
        rw [Nat.pow_add, Nat.pow_succ]; ring
      rw [h1, Nat.testBit_to_div_mod, Nat.mul_add_div (Nat.two_pow_pos i),
        Nat.add_comm, Nat.add_mul_mod_self_right, ← Nat.testBit_to_div_mod]
    rw [key]
    have hge : ¬ (i ≥ i + (j + 1)) := by omega
    simp [hge]
  · obtain ⟨j, rfl⟩ : ∃ j, i = k + j := ⟨i - k, by omega⟩
    have hb' : b < 2 ^ (k + j) :=
      lt_of_lt_of_le hb (Nat.pow_le_pow_right (by omega) (Nat.le_add_right k j))
    have hbf : b.testBit (k + j) = false := Nat.testBit_lt_two_pow hb'
    have key : (a * 2 ^ k + b).testBit (k + j) = a.testBit j := by
      have h1 : (a * 2 ^ k + b) / 2 ^ (k + j) = a / 2 ^ j := by
        rw [Nat.pow_add, ← Nat.div_div_eq_div_mul, Nat.mul_comm a,
          Nat.mul_add_div (Nat.two_pow_pos k), Nat.div_eq_of_lt hb, Nat.add_zero]
      rw [Nat.testBit_to_div_mod, h1, ← Nat.testBit_to_div_mod]
    rw [key, hbf, Bool.or_false]
    have hj : k + j - k = j := by omega
    simp [hik, hj]

theorem shiftLeft_lor_byte (a b : Nat) (hb : b < 256) :
    (a <<< 8) ||| b = a * 256 + b := by
  rw [shiftLeft_lor_eq_add a b 8 hb, Nat.shiftLeft_eq]

/-- Big-endian value of a byte list. -/
def beVal (bs : List Nat) : Nat := bs.foldl (fun a b => a * 256 + b) 0

@[simp] theorem beVal_nil : beVal [] = 0 := rfl

theorem lor_shift_step (acc b k k8 : Nat) (hk : k8 = k + 8) (hb : b < 256) :
    (acc <<< k8) ||| (b <<< k) = (acc * 256 + b) <<< k := by
  subst hk
  have hlt : b <<< k < 2 ^ (k + 8) := by
    rw [Nat.shiftLeft_eq, Nat.pow_add]
    calc b * 2 ^ k < 256 * 2 ^ k := by
          exact (Nat.mul_lt_mul_right (Nat.two_pow_pos k)).mpr hb
      _ = 2 ^ k * 2 ^ 8 := by ring
  rw [shiftLeft_lor_eq_add _ _ _ hlt, Nat.shiftLeft_eq, Nat.shiftLeft_eq,
    Nat.shiftLeft_eq, Nat.pow_add]
  ring

theorem read_32_beVal (b0 b1 b2 b3 : Nat) (t : List Nat)
    (h1 : b1 < 256) (h2 : b2 < 256) (h3 : b3 < 256) :
    read_32 ⟨b0 :: b1 :: b2 :: b3 :: t, .normal⟩ =
      (beVal [b0, b1, b2, b3], ⟨t, .normal⟩) := by
  rw [read_32_normal, lor_shift_step b0 b1 16 24 rfl h1,
    lor_shift_step _ b2 8 16 rfl h2, shiftLeft_lor_byte _ _ h3]
  simp [beVal]

theorem read_16_beVal (b0 b1 : Nat) (t : List Nat) (h1 : b1 < 256) :
    read_16 ⟨b0 :: b1 :: t, .normal⟩ = (beVal [b0, b1], ⟨t, .normal⟩) := by
  rw [read_16_normal, shiftLeft_lor_byte _ _ h1]
  simp [beVal]

/-- `read_32_beVal` with the bounds first, for use as a rewrite rule. -/
theorem read_32_beVal' (b0 b1 b2 b3 : Nat)
    (h1 : b1 < 256) (h2 : b2 < 256) (h3 : b3 < 256) :
    ∀ t : List Nat, read_32 ⟨b0 :: b1 :: b2 :: b3 :: t, .normal⟩ =
      (beVal [b0, b1, b2, b3], ⟨t, .normal⟩) :=
  fun t => read_32_beVal b0 b1 b2 b3 t h1 h2 h3

/-- `read_16_beVal` with the bound first, for use as a rewrite rule. -/
theorem read_16_beVal' (b0 b1 : Nat) (h1 : b1 < 256) :
    ∀ t : List Nat, read_16 ⟨b0 :: b1 :: t, .normal⟩ =
      (beVal [b0, b1], ⟨t, .normal⟩) :=
  fun t => read_16_beVal b0 b1 t h1

theorem beVal_cons_acc (b : Nat) (t : List Nat) (a : Nat) :
    List.foldl (fun a b => a * 256 + b) a (b :: t) =
      List.foldl (fun a b => a * 256 + b) (a * 256 + b) t := rfl

/-! ### The MPI reader

Modelled from the spec (section "MPI reader"): `mpi/mpicoder.c` is not in
the sources.  It reads a 16-bit big-endian bit length `nb`, then
`⌈nb/8⌉` value bytes, and reports the total bytes consumed so the caller
can decrement its `pktlen`; it fails when the prefix or the data is
truncated.  The spec does not fix the reported count on failure; the
embedding leaves the counter unchanged there, and every theorem below
exercises successful reads only. -/

def mpi_read (s : Src) : Option (Nat × Nat × Src) :=
  match iobuf_get s with
  | (none, _) => none
  | (some b0, s1) =>
    match iobuf_get s1 with
    | (none, _) => none
    | (some b1, s2) =>
      let nbits := b0 * 256 + b1
      let nbytes := (nbits + 7) / 8
      let r := iobuf_read nbytes s2
      if r.1 = nbytes then some (beVal r.2.1, 2 + nbytes, r.2.2) else none

/-- The caller pattern `n = pktlen; x = mpi_read(inp, &n, 0); pktlen -= n;`:
returns the MPI value (none when the read failed), the new `pktlen` and the
advanced source. -/
def mpiStep (pktlen : Nat) (s : Src) : Option Nat × Nat × Src :=
  match mpi_read s with
  | some (v, n, s') => (some v, pktlen - n, s')
  | none => (none, pktlen, s)

/-- A well-formed wire encoding of one MPI: two prefix bytes followed by
exactly the announced number of value bytes. -/
def IsMpiEnc (m : List Nat) : Prop :=
  ∃ b0 b1 body, m = b0 :: b1 :: body ∧ body.length = (b0 * 256 + b1 + 7) / 8

/-- The value of a well-formed MPI encoding. -/
def mpiVal (m : List Nat) : Nat := beVal (m.drop 2)

theorem mpi_read_enc (m t : List Nat) (h : IsMpiEnc m) :
    mpi_read ⟨m ++ t, .normal⟩ = some (mpiVal m, m.length, ⟨t, .normal⟩) := by
  obtain ⟨b0, b1, body, rfl, hlen⟩ := h
  simp only [List.cons_append, mpi_read, iobuf_get_normal_cons]
  rw [iobuf_read_normal]
  simp [hlen, mpiVal, List.take_of_length_le, List.drop_of_length_le]
  omega

theorem mpiStep_enc (pl : Nat) (m t : List Nat) (h : IsMpiEnc m) :
    mpiStep pl ⟨m ++ t, .normal⟩ = (some (mpiVal m), pl - m.length, ⟨t, .normal⟩) := by
  simp [mpiStep, mpi_read_enc m t h]

theorem IsMpiEnc_length (m : List Nat) (h : IsMpiEnc m) : 2 ≤ m.length := by
  obtain ⟨b0, b1, body, rfl, _⟩ := h
  simp

/-- `mpiStep_enc` with the encoding first, for use as a rewrite rule. -/
theorem mpiStep_enc' (m : List Nat) (h : IsMpiEnc m) :
    ∀ (pl : Nat) (t : List Nat),
      mpiStep pl ⟨m ++ t, .normal⟩ =
        (some (mpiVal m), pl - m.length, ⟨t, .normal⟩) :=
  fun pl t => mpiStep_enc pl m t h

/-! ### Packet records

`m_alloc_clear` zero-initialises every record; the `clear` values below are
those initial states. -/

structure S2K where
  mode : Nat
  hash_algo : Nat
  salt : List Nat
  count : Nat
  deriving Repr, DecidableEq

def S2K.clear : S2K := ⟨0, 0, List.replicate 8 0, 0⟩

structure PKT_symkey_enc where
  version : Nat
  cipher_algo : Nat
  s2k : S2K
  seskeylen : Nat
  seskey : List Nat
  deriving Repr, DecidableEq

structure PKT_pubkey_enc where
  version : Nat
  keyid0 : Nat
  keyid1 : Nat
  pubkey_algo : Nat
  elg_a : Option Nat
  elg_b : Option Nat
  rsa_integer : Option Nat
  deriving Repr, DecidableEq

def PKT_pubkey_enc.clear : PKT_pubkey_enc := ⟨0, 0, 0, 0, none, none, none⟩

/-- The `d` union of `PKT_signature`; the members written by the matching
algorithm branch. -/
inductive SigMpis where
  | clear : SigMpis
  | elg (a b : Option Nat) : SigMpis
  | dsa (r s : Option Nat) : SigMpis
  | rsa (m : Option Nat) : SigMpis
  deriving Repr, DecidableEq

structure PKT_signature where
  version : Nat
  sig_class : Nat
  timestamp : Nat
  keyid0 : Nat
  keyid1 : Nat
  pubkey_algo : Nat
  digest_algo : Nat
  hashed_data : Option (List Nat)
  unhashed_data : Option (List Nat)
  digest_start : List Nat
  d : SigMpis
  deriving Repr, DecidableEq

def PKT_signature.clear : PKT_signature :=
  ⟨0, 0, 0, 0, 0, 0, 0, none, none, [], .clear⟩

structure PKT_onepass_sig where
  sig_class : Nat
  digest_algo : Nat
  pubkey_algo : Nat
  keyid0 : Nat
  keyid1 : Nat
  last : Nat
  deriving Repr, DecidableEq

def PKT_onepass_sig.clear : PKT_onepass_sig := ⟨0, 0, 0, 0, 0, 0⟩

/-- The public-key material union of a key certificate. -/
inductive CertMpis where
  | clear : CertMpis
  | elg (p g y : Option Nat) : CertMpis
  | dsa (p q g y : Option Nat) : CertMpis
  | rsa (n e : Option Nat) : CertMpis
  deriving Repr, DecidableEq

/-- The secret-key material union of a secret key certificate. -/
inductive SecMpis where
  | clear : SecMpis
  | elg (x : Option Nat) : SecMpis
  | dsa (x : Option Nat) : SecMpis
  | rsa (d p q u : Option Nat) : SecMpis
  deriving Repr, DecidableEq

structure Protect where
  algo : Nat
  s2k : S2K
  iv : List Nat
  deriving Repr, DecidableEq

def Protect.clear : Protect := ⟨0, S2K.clear, List.replicate 8 0⟩

structure PKT_public_cert where
  timestamp : Nat
  valid_days : Nat
  hdrbytes : Nat
  version : Nat
  pubkey_algo : Nat
  d : CertMpis
  deriving Repr, DecidableEq

def PKT_public_cert.clear : PKT_public_cert := ⟨0, 0, 0, 0, 0, .clear⟩

structure PKT_secret_cert where
  timestamp : Nat
  valid_days : Nat
  hdrbytes : Nat
  version : Nat
  pubkey_algo : Nat
  is_protected : Bool
  protect : Protect
  d : CertMpis
  skey : SecMpis
  csum : Nat
  deriving Repr, DecidableEq

def PKT_secret_cert.clear : PKT_secret_cert :=
  ⟨0, 0, 0, 0, 0, false, Protect.clear, .clear, .clear, 0⟩

structure PKT_user_id where
  len : Nat
  name : List Nat
  deriving Repr, DecidableEq

structure PKT_comment where
  len : Nat
  data : List Nat
  deriving Repr, DecidableEq

structure PKT_plaintext where
  mode : Nat
  namelen : Nat
  name : List Nat
  timestamp : Nat
  len : Nat
  buf : List Nat
  deriving Repr, DecidableEq

structure PKT_compressed where
  len : Nat
  algorithm : Nat
  buf : List Nat
  deriving Repr, DecidableEq

structure PKT_encrypted where
  len : Nat
  buf : Option (List Nat)
  deriving Repr, DecidableEq

inductive PktBody where
  | symkey_enc (k : PKT_symkey_enc) : PktBody
  | pubkey_enc (k : PKT_pubkey_enc) : PktBody
  | signature (sig : PKT_signature) : PktBody
  | onepass_sig (ops : PKT_onepass_sig) : PktBody
  | public_cert (c : PKT_public_cert) : PktBody
  | secret_cert (c : PKT_secret_cert) : PktBody
  | user_id (u : PKT_user_id) : PktBody
  | comment (c : PKT_comment) : PktBody
  | plaintext (p : PKT_plaintext) : PktBody
  | compressed (c : PKT_compressed) : PktBody
  | encrypted (e : PKT_encrypted) : PktBody
  deriving Repr, DecidableEq

structure Packet where
  pkttype : Nat
  body : Option PktBody
  deriving Repr, DecidableEq

/-! ### The subpacket scanner (`parse_sig_subpkt`)

The buffer is the raw area stored in the signature record (`NULL` for an
absent area).  The C function returns a pointer into the buffer plus a
length out-parameter; `found` carries the buffer tail at the returned
pointer together with that length.  `null` is every `NULL` return
(end-of-packets, too-short buffer, too-short payload); `bug` is the
`BUG()` abort taken for a requested type the switch does not know. -/

inductive SubpktRes where
  | found (payload : List Nat) (n : Nat) : SubpktRes
  | null : SubpktRes
  | bug : SubpktRes
  deriving Repr, DecidableEq

/-- Decode of one subpacket length field, lines 570..585 of the source:
first byte, then the 255 / 192..254 escapes.  Returns the length, the
advanced buffer and the new `buflen`; `none` is `goto too_short`.  In the
192..254 arm the source decrements `buflen` for the second length byte but
does not advance the buffer pointer past it. -/
def subpktLen (buffer0 : List Nat) (buflen0 : Nat) : Option (Nat × List Nat × Nat) :=
  let n0 := buffer0.headD 0
  let buffer := buffer0.drop 1
  let buflen := buflen0 - 1
  if n0 = 255 then
    if buflen < 4 then none
    else
      some ((((buffer.getD 0 0 <<< 24) ||| (buffer.getD 1 0 <<< 16)) |||
               (buffer.getD 2 0 <<< 8)) ||| buffer.getD 3 0,
            buffer.drop 4, buflen - 4)
  else if 192 ≤ n0 then
    if buflen < 2 then none
    else some (((n0 - 192) <<< 8) + buffer.headD 0 + 192, buffer, buflen - 1)
  else some (n0, buffer, buflen)

/-- The post-`break` tail of `parse_sig_subpkt`: step over the type byte,
decrement `n` (a `size_t`, so `0` wraps), bound-check, and validate the
payload length of the recognised types. -/
def subpktFinish (buffer : List Nat) (buflen n0 ty : Nat) : SubpktRes :=
  let payload := buffer.drop 1
  let n := if n0 = 0 then 2 ^ 64 - 1 else n0 - 1
  if n > buflen then .null
  else if (ty : Int) = SIGSUBPKT_SIG_CREATED then
    if n < 4 then .null else .found payload n
  else if (ty : Int) = SIGSUBPKT_ISSUER then
    if n < 8 then .null else .found payload n
  else .bug

/-- The scan loop of `parse_sig_subpkt`.  `buflen` strictly decreases each
iteration, so fuel `buflen + 1` never runs out. -/
def parse_sig_subpkt_loop : Nat → List Nat → Nat → Int → SubpktRes
  | 0, _, _, _ => .null
  | fuel + 1, buffer, buflen, reqtype =>
    if buflen = 0 then .null
    else
      match subpktLen buffer buflen with
      | none => .null
      | some (n, buffer, buflen) =>
        if buflen < n then .null
        else
          let ty := buffer.headD 0 &&& 0x7f
          if 0 ≤ reqtype ∧ (ty : Int) = reqtype then subpktFinish buffer buflen n ty
          else parse_sig_subpkt_loop fuel (buffer.drop n) (buflen - n) reqtype

def parse_sig_subpkt (buffer : Option (List Nat)) (reqtype : Int) : SubpktRes :=
  match buffer with
  | none => .null
  | some buf =>
    let buflen := (buf.headD 0 <<< 8) ||| buf.getD 1 0
    parse_sig_subpkt_loop (buflen + 1) (buf.drop 2) buflen reqtype

/-! ### `parse_symkeyenc` -/

/-- Result of `parse_symkeyenc`: the C function always returns 0; `rec` is
the record built (none when the body was abandoned before the allocation);
`pktlenAtAssert` is the value of the `pktlen` counter at the
`assert(!pktlen)` on the success path. -/
structure SymkeyencOut where
  rc : Int
  k : Option PKT_symkey_enc
  pktlenAtAssert : Option Nat
  src : Src
  deriving Repr, DecidableEq

def parse_symkeyenc (pktlen : Nat) (s : Src) : SymkeyencOut :=
  if pktlen < 4 then ⟨0, none, none, skip_rest pktlen s⟩
  else
    let v := iobuf_get_noeof s
    let pktlen1 := pktlen - 1
    if v.1 ≠ 4 then ⟨0, none, none, skip_rest pktlen1 v.2⟩
    else if pktlen1 > 200 then ⟨0, none, none, skip_rest pktlen1 v.2⟩
    else
      let c := iobuf_get_noeof v.2
      let m := iobuf_get_noeof c.2
      let h := iobuf_get_noeof m.2
      let pktlen4 := pktlen1 - 3
      let minlen? : Option Nat :=
        if m.1 = 0 then some 0
        else if m.1 = 1 then some 8
        else if m.1 = 4 then some 12
        else none
      match minlen? with
      | none => ⟨0, none, none, skip_rest pktlen4 h.2⟩
      | some minlen =>
        if minlen > pktlen4 then ⟨0, none, none, skip_rest pktlen4 h.2⟩
        else
          let seskeylen := pktlen4 - minlen
          let st := if m.1 = 1 ∨ m.1 = 4 then readCounted 8 pktlen4 h.2
                    else ([], pktlen4, h.2)
          -- the salt array is zero-initialised; a partial fill keeps zeros
          let salt := st.1 ++ List.replicate (8 - st.1.length) 0
          let ct := if m.1 = 4 then
                      let r := read_32 st.2.2
                      (r.1, st.2.1 - 4, r.2)
                    else (0, st.2.1, st.2.2)
          let sk := readCounted seskeylen ct.2.1 ct.2.2
          ⟨0, some ⟨v.1, c.1, ⟨m.1, h.1, salt, ct.1⟩, seskeylen, sk.1⟩,
            some sk.2.1, skip_rest sk.2.1 sk.2.2⟩

/-! ### `parse_signature` -/

/-- The algorithm-specific signature MPIs (the tail of `parse_signature`). -/
def signature_mpis (pubkey_algo pktlen : Nat) (s : Src) : SigMpis × Nat × Src :=
  if is_ELGAMAL pubkey_algo then
    let r1 := mpiStep pktlen s
    let r2 := mpiStep r1.2.1 r1.2.2
    (.elg r1.1 r2.1, r2.2.1, r2.2.2)
  else if pubkey_algo = PUBKEY_ALGO_DSA then
    let r1 := mpiStep pktlen s
    let r2 := mpiStep r1.2.1 r1.2.2
    (.dsa r1.1 r2.1, r2.2.1, r2.2.2)
  else if is_RSA pubkey_algo then
    let r1 := mpiStep pktlen s
    (.rsa r1.1, r1.2.1, r1.2.2)
  else (.clear, pktlen, s)

/-- Result of reading one v4 subpacket area (the source repeats this block
for the hashed and the unhashed area): `invalid` is the `n > 10000` exit
with `G10ERR_INVALID_PACKET`, `eof` the premature-eof exit with `rc = -1`. -/
inductive AreaRes where
  | ok (stored : Option (List Nat)) (pktlen : Nat) (s : Src) : AreaRes
  | invalid (pktlen : Nat) (s : Src) : AreaRes
  | eof (pktlen : Nat) (s : Src) : AreaRes

/-- One v4 subpacket area: 16-bit length `n`, bound 10000, then `n` raw
bytes stored behind a two-byte prefix.  The prefix is stored with the
byte-sized assignments of the source: `hashed_data[0] = n << 8;
hashed_data[1] = n;`, i.e. `(n <<< 8) % 256` and `n % 256`. -/
def read_subpkt_area (pktlen : Nat) (s : Src) : AreaRes :=
  let r := read_16 s
  let n := r.1
  let pl := pktlen - 2
  if n > 10000 then .invalid pl r.2
  else if n = 0 then .ok none pl r.2
  else
    let rd := iobuf_read n r.2
    if rd.1 ≠ n then .eof pl rd.2.2
    else .ok (some ((n <<< 8) % 256 :: n % 256 :: rd.2.1)) (pl - n) rd.2.2

structure SigOut where
  rc : Int
  sig : PKT_signature
  src : Src
  deriving DecidableEq

def parse_signature (pktlen : Nat) (s : Src) : SigOut :=
  if pktlen < 16 then ⟨0, PKT_signature.clear, skip_rest pktlen s⟩
  else
    let v := iobuf_get_noeof s
    let version := v.1
    let pl1 := pktlen - 1
    if version = 4 then
      let cl := iobuf_get_noeof v.2
      let pa := iobuf_get_noeof cl.2
      let da := iobuf_get_noeof pa.2
      let pl2 := pl1 - 3
      match read_subpkt_area pl2 da.2 with
      | .invalid pl s1 =>
        ⟨G10ERR_INVALID_PACKET,
         ⟨4, cl.1, 0, 0, 0, pa.1, da.1, none, none, [], .clear⟩, skip_rest pl s1⟩
      | .eof pl s1 =>
        ⟨-1, ⟨4, cl.1, 0, 0, 0, pa.1, da.1, none, none, [], .clear⟩, skip_rest pl s1⟩
      | .ok hashed pl s1 =>
        match read_subpkt_area pl s1 with
        | .invalid pl2 s2 =>
          ⟨G10ERR_INVALID_PACKET,
           ⟨4, cl.1, 0, 0, 0, pa.1, da.1, hashed, none, [], .clear⟩, skip_rest pl2 s2⟩
        | .eof pl2 s2 =>
          ⟨-1, ⟨4, cl.1, 0, 0, 0, pa.1, da.1, hashed, none, [], .clear⟩, skip_rest pl2 s2⟩
        | .ok unhashed pl2 s2 =>
          if pl2 < 5 then
            ⟨G10ERR_INVALID_PACKET,
             ⟨4, cl.1, 0, 0, 0, pa.1, da.1, hashed, unhashed, [], .clear⟩,
             skip_rest pl2 s2⟩
          else
            let d0 := iobuf_get_noeof s2
            let d1 := iobuf_get_noeof d0.2
            let pl3 := pl2 - 2
            let ts := match parse_sig_subpkt hashed SIGSUBPKT_SIG_CREATED with
                      | .found p _ => buffer_to_u32 p
                      | _ => 0
            let ki := match parse_sig_subpkt unhashed SIGSUBPKT_ISSUER with
                      | .found p _ => (buffer_to_u32 p, buffer_to_u32 (p.drop 4))
                      | _ => (0, 0)
            let mp := signature_mpis pa.1 pl3 d1.2
            ⟨0, ⟨4, cl.1, ts, ki.1, ki.2, pa.1, da.1, hashed, unhashed,
                 [d0.1, d1.1], mp.1⟩,
             skip_rest mp.2.1 mp.2.2⟩
    else if version = 2 ∨ version = 3 then
      let md := iobuf_get_noeof v.2
      let cl := iobuf_get_noeof md.2
      let ts := read_32 cl.2
      let k0 := read_32 ts.2
      let k1 := read_32 k0.2
      let pa := iobuf_get_noeof k1.2
      let da := iobuf_get_noeof pa.2
      let pl2 := pl1 - 16
      if pl2 < 5 then
        ⟨G10ERR_INVALID_PACKET,
         ⟨version, cl.1, ts.1, k0.1, k1.1, pa.1, da.1, none, none, [], .clear⟩,
         skip_rest pl2 da.2⟩
      else
        let d0 := iobuf_get_noeof da.2
        let d1 := iobuf_get_noeof d0.2
        let pl3 := pl2 - 2
        let mp := signature_mpis pa.1 pl3 d1.2
        ⟨0, ⟨version, cl.1, ts.1, k0.1, k1.1, pa.1, da.1, none, none,
             [d0.1, d1.1], mp.1⟩,
         skip_rest mp.2.1 mp.2.2⟩
    else
      ⟨0, ⟨version, 0, 0, 0, 0, 0, 0, none, none, [], .clear⟩, skip_rest pl1 v.2⟩

/-! ### The small body parsers -/

def parse_pubkeyenc (pktlen : Nat) (s : Src) : Int × PKT_pubkey_enc × Src :=
  if pktlen < 12 then ⟨0, PKT_pubkey_enc.clear, skip_rest pktlen s⟩
  else
    let v := iobuf_get_noeof s
    let pl1 := pktlen - 1
    if v.1 ≠ 2 ∧ v.1 ≠ 3 then
      ⟨0, ⟨v.1, 0, 0, 0, none, none, none⟩, skip_rest pl1 v.2⟩
    else
      let k0 := read_32 v.2
      let k1 := read_32 k0.2
      let pa := iobuf_get_noeof k1.2
      let pl2 := pl1 - 9
      if is_ELGAMAL pa.1 then
        let r1 := mpiStep pl2 pa.2
        let r2 := mpiStep r1.2.1 r1.2.2
        ⟨0, ⟨v.1, k0.1, k1.1, pa.1, r1.1, r2.1, none⟩, skip_rest r2.2.1 r2.2.2⟩
      else if is_RSA pa.1 then
        let r1 := mpiStep pl2 pa.2
        ⟨0, ⟨v.1, k0.1, k1.1, pa.1, none, none, r1.1⟩, skip_rest r1.2.1 r1.2.2⟩
      else
        ⟨0, ⟨v.1, k0.1, k1.1, pa.1, none, none, none⟩, skip_rest pl2 pa.2⟩

def parse_onepass_sig (pktlen : Nat) (s : Src) : Int × PKT_onepass_sig × Src :=
  if pktlen < 13 then ⟨0, PKT_onepass_sig.clear, skip_rest pktlen s⟩
  else
    let v := iobuf_get_noeof s
    let pl1 := pktlen - 1
    if v.1 ≠ 3 then ⟨0, PKT_onepass_sig.clear, skip_rest pl1 v.2⟩
    else
      let cl := iobuf_get_noeof v.2
      let da := iobuf_get_noeof cl.2
      let pa := iobuf_get_noeof da.2
      let k0 := read_32 pa.2
      let k1 := read_32 k0.2
      let la := iobuf_get_noeof k1.2
      ⟨0, ⟨cl.1, da.1, pa.1, k0.1, k1.1, la.1⟩, skip_rest (pl1 - 12) la.2⟩

def parse_user_id (pktlen : Nat) (s : Src) : Int × PKT_user_id × Src :=
  let r := readCounted pktlen pktlen s
  ⟨0, ⟨pktlen, r.1⟩, r.2.2⟩

def parse_comment (pktlen : Nat) (s : Src) : Int × PKT_comment × Src :=
  let r := readCounted pktlen pktlen s
  ⟨0, ⟨pktlen, r.1⟩, r.2.2⟩

/-- `parse_trust` reads a single byte for the diagnostic flag; it builds no
record and never calls `skip_rest`. -/
def parse_trust (s : Src) : Src := (iobuf_get_noeof s).2

/-- The name loop of `parse_plaintext` for `pktlen > 0`:
`for( i=0; pktlen > 4 && i < namelen; pktlen--, i++ )`. -/
def plaintext_name_loop : Nat → Nat → Src → List Nat × Nat × Src
  | 0, pl, s => ([], pl, s)
  | i + 1, pl, s =>
    if pl > 4 then
      let b := iobuf_get_noeof s
      let r := plaintext_name_loop i (pl - 1) b.2
      (b.1 :: r.1, r.2.1, r.2.2)
    else ([], pl, s)

/-- The name loop of `parse_plaintext` for `pktlen = 0`: read until the
name is complete or the stream ends. -/
def plaintext_name_eof : Nat → Src → List Nat × Src
  | 0, s => ([], s)
  | i + 1, s =>
    match iobuf_get s with
    | (none, s') => ([], s')
    | (some b, s') =>
      let r := plaintext_name_eof i s'
      (b :: r.1, r.2)

def parse_plaintext (pktlen : Nat) (s : Src) : Int × Option PKT_plaintext × Src :=
  if pktlen ≠ 0 ∧ pktlen < 6 then ⟨0, none, s⟩
  else
    let mo := iobuf_get_noeof s
    let pl1 := if pktlen ≠ 0 then pktlen - 1 else 0
    let nl := iobuf_get_noeof mo.2
    let pl2 := if pktlen ≠ 0 then pl1 - 1 else 0
    let nm := if pktlen ≠ 0 then
                let r := plaintext_name_loop nl.1 pl2 nl.2
                (r.1, r.2.1, r.2.2)
              else
                let r := plaintext_name_eof nl.1 nl.2
                (r.1, 0, r.2)
    let ts := read_32 nm.2.2
    let pl3 := if pktlen ≠ 0 then nm.2.1 - 4 else 0
    ⟨0, some ⟨mo.1, nl.1, nm.1, ts.1, pl3, ts.2.data⟩, ts.2⟩

def parse_compressed (s : Src) : Int × PKT_compressed × Src :=
  let al := iobuf_get_noeof s
  ⟨0, ⟨0, al.1, al.2.data⟩, al.2⟩

def parse_encrypted (pktlen : Nat) (s : Src) : Int × PKT_encrypted × Src :=
  if pktlen ≠ 0 ∧ pktlen < 10 then
    ⟨0, ⟨pktlen, none⟩, skip_rest pktlen s⟩
  else
    ⟨0, ⟨pktlen, some s.data⟩, s⟩

/-! ### `parse_certificate` -/

/-- The `memcpy(dst, temp, 8)` of an 8-byte stack buffer filled by a
bounded read loop; a short read leaves the tail unspecified in C, modelled
as zeros (no theorem exercises a short read). -/
def fill8 (bs : List Nat) : List Nat := bs ++ List.replicate (8 - bs.length) 0

inductive ProtRes where
  | ok (prot : Protect) (pktlen : Nat) (s : Src) : ProtRes
  | invalid (prot : Protect) (pktlen : Nat) (s : Src) : ProtRes
  deriving DecidableEq

/-- The trailing IV read of the protection block: `if( pktlen < 8 )` is
`G10ERR_INVALID_PACKET`, otherwise 8 bytes are read and copied into
`protect.iv`. -/
def protect_iv (algo : Nat) (k : S2K) (pktlen : Nat) (s : Src) : ProtRes :=
  if pktlen < 8 then .invalid ⟨algo, k, Protect.clear.iv⟩ pktlen s
  else
    let r := readCounted 8 pktlen s
    .ok ⟨algo, k, fill8 r.1⟩ r.2.1 r.2.2

/-- The protection block of the secret ElGamal and DSA certificate
branches.  The source duplicates this block verbatim in the two branches;
the single difference is the legacy hash kludge (`isElg` true: RMD160 for
Blowfish-160, MD5 otherwise; DSA: always MD5).  `a` is the protection
algorithm byte, already read and nonzero. -/
def parse_protect (isElg : Bool) (a : Nat) (pktlen : Nat) (s : Src) : ProtRes :=
  if a = 255 then
    if pktlen < 3 then .invalid ⟨255, S2K.clear, Protect.clear.iv⟩ pktlen s
    else
      let al := iobuf_get_noeof s
      let mo := iobuf_get_noeof al.2
      let ha := iobuf_get_noeof mo.2
      let pl3 := pktlen - 3
      let st := if mo.1 = 1 ∨ mo.1 = 4 then readCounted 8 pl3 ha.2
                else ([], pl3, ha.2)
      let salt := if mo.1 = 1 ∨ mo.1 = 4 then fill8 st.1 else S2K.clear.salt
      if mo.1 ≠ 0 ∧ mo.1 ≠ 1 ∧ mo.1 ≠ 4 then
        .invalid ⟨al.1, ⟨mo.1, ha.1, salt, 0⟩, Protect.clear.iv⟩ st.2.1 st.2.2
      else if mo.1 = 4 ∧ st.2.1 < 4 then
        .invalid ⟨al.1, ⟨mo.1, ha.1, salt, 0⟩, Protect.clear.iv⟩ st.2.1 st.2.2
      else
        let ct := if mo.1 = 4 then
                    let r := read_32 st.2.2
                    (r.1, st.2.1 - 4, r.2)
                  else (0, st.2.1, st.2.2)
        protect_iv al.1 ⟨mo.1, ha.1, salt, ct.1⟩ ct.2.1 ct.2.2
  else
    let hash := if isElg ∧ a = CIPHER_ALGO_BLOWFISH160 then DIGEST_ALGO_RMD160
                else DIGEST_ALGO_MD5
    protect_iv a ⟨0, hash, S2K.clear.salt, 0⟩ pktlen s

structure CertOut where
  rc : Int
  body : PktBody
  src : Src
  deriving DecidableEq

def parse_certificate (pkttype pktlen hdrlen : Nat) (s : Src) : CertOut :=
  let defaultBody : PktBody :=
    if pkttype = PKT_SECRET_CERT ∨ pkttype = PKT_SECKEY_SUBCERT then
      .secret_cert PKT_secret_cert.clear
    else .public_cert PKT_public_cert.clear
  let v := iobuf_get_noeof s
  let version := v.1
  let pl1 := pktlen - 1
  if pkttype = PKT_PUBKEY_SUBCERT ∧ version = 35 then
    -- version byte '#' (ASCII 35): old PGP comment packet, consumed whole
    ⟨0, defaultBody, skip_rest pl1 v.2⟩
  else if version ≠ 4 ∧ version ≠ 2 ∧ version ≠ 3 then
    ⟨0, defaultBody, skip_rest pl1 v.2⟩
  else if pl1 < 11 then
    ⟨0, defaultBody, skip_rest pl1 v.2⟩
  else
    let is_v4 := version = 4
    let tsr := read_32 v.2
    let vdr := if is_v4 then (0, tsr.2) else read_16 tsr.2
    let plA := if is_v4 then pl1 - 4 else pl1 - 6
    let alr := iobuf_get_noeof vdr.2
    let algorithm := alr.1
    let plB := plA - 1
    let timestamp := tsr.1
    let valid_period := vdr.1
    let baseBody : PktBody :=
      if pkttype = PKT_SECRET_CERT ∨ pkttype = PKT_SECKEY_SUBCERT then
        .secret_cert ⟨timestamp, valid_period, hdrlen, version, algorithm,
                      false, Protect.clear, .clear, .clear, 0⟩
      else
        .public_cert ⟨timestamp, valid_period, hdrlen, version, algorithm, .clear⟩
    if is_ELGAMAL algorithm then
      let p := mpiStep plB alr.2
      let g := mpiStep p.2.1 p.2.2
      let y := mpiStep g.2.1 g.2.2
      let dpub : CertMpis := .elg p.1 g.1 y.1
      if pkttype = PKT_PUBLIC_CERT ∨ pkttype = PKT_PUBKEY_SUBCERT then
        ⟨0, .public_cert ⟨timestamp, valid_period, hdrlen, version, algorithm, dpub⟩,
         skip_rest y.2.1 y.2.2⟩
      else
        let an := iobuf_get_noeof y.2.2
        let a := an.1
        let plC := y.2.1 - 1
        if a = 0 then
          let x := mpiStep plC an.2
          let cs := read_16 x.2.2
          ⟨0, .secret_cert ⟨timestamp, valid_period, hdrlen, version, algorithm,
              false, Protect.clear, dpub, .elg x.1, cs.1⟩,
           skip_rest (x.2.1 - 2) cs.2⟩
        else
          match parse_protect true a plC an.2 with
          | .invalid pr pl2 s2 =>
            ⟨G10ERR_INVALID_PACKET,
             .secret_cert ⟨timestamp, valid_period, hdrlen, version, algorithm,
                true, pr, dpub, .clear, 0⟩, skip_rest pl2 s2⟩
          | .ok pr pl2 s2 =>
            let x := mpiStep pl2 s2
            let cs := read_16 x.2.2
            ⟨0, .secret_cert ⟨timestamp, valid_period, hdrlen, version, algorithm,
                true, pr, dpub, .elg x.1, cs.1⟩,
             skip_rest (x.2.1 - 2) cs.2⟩
    else if algorithm = PUBKEY_ALGO_DSA then
      let p := mpiStep plB alr.2
      let q := mpiStep p.2.1 p.2.2
      let g := mpiStep q.2.1 q.2.2
      let y := mpiStep g.2.1 g.2.2
      let dpub : CertMpis := .dsa p.1 q.1 g.1 y.1
      if pkttype = PKT_PUBLIC_CERT ∨ pkttype = PKT_PUBKEY_SUBCERT then
        ⟨0, .public_cert ⟨timestamp, valid_period, hdrlen, version, algorithm, dpub⟩,
         skip_rest y.2.1 y.2.2⟩
      else
        let an := iobuf_get_noeof y.2.2
        let a := an.1
        let plC := y.2.1 - 1
        if a = 0 then
          let x := mpiStep plC an.2
          let cs := read_16 x.2.2
          ⟨0, .secret_cert ⟨timestamp, valid_period, hdrlen, version, algorithm,
              false, Protect.clear, dpub, .dsa x.1, cs.1⟩,
           skip_rest (x.2.1 - 2) cs.2⟩
        else
          match parse_protect false a plC an.2 with
          | .invalid pr pl2 s2 =>
            ⟨G10ERR_INVALID_PACKET,
             .secret_cert ⟨timestamp, valid_period, hdrlen, version, algorithm,
                true, pr, dpub, .clear, 0⟩, skip_rest pl2 s2⟩
          | .ok pr pl2 s2 =>
            let x := mpiStep pl2 s2
            let cs := read_16 x.2.2
            ⟨0, .secret_cert ⟨timestamp, valid_period, hdrlen, version, algorithm,
                true, pr, dpub, .dsa x.1, cs.1⟩,
             skip_rest (x.2.1 - 2) cs.2⟩
    else if is_RSA algorithm then
      let nm := mpiStep plB alr.2
      let em := mpiStep nm.2.1 nm.2.2
      let dpub : CertMpis := .rsa nm.1 em.1
      if pkttype = PKT_PUBLIC_CERT ∨ pkttype = PKT_PUBKEY_SUBCERT then
        ⟨0, .public_cert ⟨timestamp, valid_period, hdrlen, version, algorithm, dpub⟩,
         skip_rest em.2.1 em.2.2⟩
      else
        let an := iobuf_get_noeof em.2.2
        let a := an.1
        let plC := em.2.1 - 1
        -- a nonzero protection byte reads 8 IV bytes, but the IV is
        -- installed in the record only for Blowfish-160
        let iv := if a ≠ 0 then
                    let r := readCounted 8 plC an.2
                    ((if a = CIPHER_ALGO_BLOWFISH160 then fill8 r.1
                      else Protect.clear.iv), r.2.1, r.2.2)
                  else (Protect.clear.iv, plC, an.2)
        let dd := mpiStep iv.2.1 iv.2.2
        let pp := mpiStep dd.2.1 dd.2.2
        let qq := mpiStep pp.2.1 pp.2.2
        let uu := mpiStep qq.2.1 qq.2.2
        let cs := read_16 uu.2.2
        ⟨0, .secret_cert ⟨timestamp, valid_period, hdrlen, version, algorithm,
            a != 0, ⟨a, S2K.clear, iv.1⟩, dpub, .rsa dd.1 pp.1 qq.1 uu.1, cs.1⟩,
         skip_rest (uu.2.1 - 2) cs.2⟩
    else
      ⟨0, baseBody, skip_rest plB alr.2⟩

/-- The version byte and valid-days bytes of a well-formed certificate
body: version 4 has no valid-days field, versions 2 and 3 carry a two-byte
big-endian valid-days field. -/
def VersionVd (v : Nat) (vd : List Nat) : Prop :=
  (v = 4 ∧ vd = []) ∨ ((v = 2 ∨ v = 3) ∧ ∃ d0 d1, vd = [d0, d1])

/-! ### The header decoder (lines 205..266 of `parse`) -/

structure HeaderOk where
  pkttype : Nat
  pktlen : Nat
  hdr : List Nat
  pgp3 : Bool
  src : Src
  deriving Repr, DecidableEq

/-- The legacy length loop
`for( ; lenbytes; lenbytes-- ) { pktlen <<= 8; pktlen |= hdr[hdrlen++] = iobuf_get_noeof(inp); }`. -/
def legacyLenLoop : Nat → Nat → Src → Nat × List Nat × Src
  | 0, pl, s => (pl, [], s)
  | n + 1, pl, s =>
    let b := iobuf_get_noeof s
    let r := legacyLenLoop n ((pl <<< 8) ||| b.1) b.2
    (r.1, b.1 :: r.2.1, r.2.2)

/-- The header part of `parse`: ctb, format bit, type and length decode,
mode switching, and the captured header bytes.  Errors carry the source at
the return point: `-1` is end-of-stream before the ctb,
`G10ERR_INVALID_PACKET` a clear high bit or a missing length byte. -/
def parseHeader (s0 : Src) : Except (Int × Src) HeaderOk :=
  match iobuf_get s0 with
  | (none, s) => .error (-1, s)
  | (some ctb, s) =>
    if ctb &&& 0x80 = 0 then .error (G10ERR_INVALID_PACKET, s)
    else if ctb &&& 0x40 ≠ 0 then
      -- new (pgp3) format
      let pkttype := ctb &&& 0x3f
      match iobuf_get s with
      | (none, s1) => .error (G10ERR_INVALID_PACKET, s1)
      | (some c, s1) =>
        if c < 192 then .ok ⟨pkttype, c, [ctb, c], true, s1⟩
        else if c < 224 then
          match iobuf_get s1 with
          | (none, s2) => .error (G10ERR_INVALID_PACKET, s2)
          | (some c2, s2) =>
            .ok ⟨pkttype, (c - 192) * 256 + (c2 + 192), [ctb, c, c2], true, s2⟩
        else if c < 255 then
          let b1 := iobuf_get_noeof s1
          let b2 := iobuf_get_noeof b1.2
          let b3 := iobuf_get_noeof b2.2
          match iobuf_get b3.2 with
          | (none, s2) => .error (G10ERR_INVALID_PACKET, s2)
          | (some b4, s2) =>
            .ok ⟨pkttype, (((b1.1 <<< 24) ||| (b2.1 <<< 16)) ||| (b3.1 <<< 8)) ||| b4,
                 [ctb, c, b1.1, b2.1, b3.1, b4], true, s2⟩
        else
          -- c = 255: "partial body length"; pktlen is still 0 here, and 0
          -- is what is passed as the initial chunk length and recorded
          .ok ⟨pkttype, 0, [ctb, c], true, iobuf_set_partblock_mode s1 0⟩
    else
      let pkttype := (ctb >>> 2) &&& 0xf
      let lenbytes := if ctb &&& 3 = 3 then 0 else 1 <<< (ctb &&& 3)
      if lenbytes = 0 then
        .ok ⟨pkttype, 0, [ctb], false,
             if pkttype ≠ PKT_COMPRESSED then iobuf_set_block_mode s else s⟩
      else
        let r := legacyLenLoop lenbytes 0 s
        .ok ⟨pkttype, r.1, ctb :: r.2.1, false, r.2.2⟩

/-! ### `copy_packet` and the dispatcher -/

/-- The block-mode copy loop of `copy_packet`: everything the source still
yields goes to the output.  Fuel as in `drain`. -/
def copyDrain : Nat → Src → List Nat → Src × List Nat
  | 0, s, out => (s, out)
  | fuel + 1, s, out =>
    match iobuf_get s with
    | (none, s') => (s', out)
    | (some b, s') => copyDrain fuel s' (out ++ [b])

/-- The definite-length copy loop of `copy_packet`, in chunks of up to 100
bytes; a read that yields nothing is the `-1` / `G10ERR_READ_FILE` exit. -/
def copy_packet_loop (s : Src) (out : List Nat) (pktlen : Nat) :
    Int × Src × List Nat :=
  if h : pktlen = 0 then (0, s, out)
  else
    match iobuf_read (min pktlen 100) s with
    | (0, _, s') => (G10ERR_READ_FILE, s', out)
    | (n + 1, bytes, s') => copy_packet_loop s' (out ++ bytes) (pktlen - (n + 1))
termination_by pktlen
decreasing_by omega

def copy_packet (pkttype pktlen : Nat) (s : Src) (out : List Nat) :
    Int × Src × List Nat :=
  if iobuf_in_block_mode s then
    let r := copyDrain (s.data.length + 1) s out
    (0, r.1, r.2)
  else if pktlen = 0 ∧ pkttype = PKT_COMPRESSED then
    let r := copyDrain (s.data.length + 1) s out
    (0, r.1, r.2)
  else copy_packet_loop s out pktlen

structure ParseResult where
  rc : Int
  pkt : Option Packet
  skip : Bool
  src : Src
  out : List Nat
  deriving DecidableEq

/-- The body dispatcher part of `parse` (the `switch( pkttype )`).  `rc`
defaults to `G10ERR_UNKNOWN_PACKET`; the `PKT_RING_TRUST` case calls the
`void` function `parse_trust` and, like the `default` case, never assigns
`rc`. -/
def parse_body (pkttype pktlen : Nat) (hdrlen : Nat) (s : Src) :
    Int × Option PktBody × Src :=
  if pkttype = PKT_PUBLIC_CERT ∨ pkttype = PKT_PUBKEY_SUBCERT ∨
     pkttype = PKT_SECRET_CERT ∨ pkttype = PKT_SECKEY_SUBCERT then
    let r := parse_certificate pkttype pktlen hdrlen s
    (r.rc, some r.body, r.src)
  else if pkttype = PKT_SYMKEY_ENC then
    let r := parse_symkeyenc pktlen s
    (r.rc, r.k.map .symkey_enc, r.src)
  else if pkttype = PKT_PUBKEY_ENC then
    let r := parse_pubkeyenc pktlen s
    (r.1, some (.pubkey_enc r.2.1), r.2.2)
  else if pkttype = PKT_SIGNATURE then
    let r := parse_signature pktlen s
    (r.rc, some (.signature r.sig), r.src)
  else if pkttype = PKT_ONEPASS_SIG then
    let r := parse_onepass_sig pktlen s
    (r.1, some (.onepass_sig r.2.1), r.2.2)
  else if pkttype = PKT_USER_ID then
    let r := parse_user_id pktlen s
    (r.1, some (.user_id r.2.1), r.2.2)
  else if pkttype = PKT_OLD_COMMENT ∨ pkttype = PKT_COMMENT then
    let r := parse_comment pktlen s
    (r.1, some (.comment r.2.1), r.2.2)
  else if pkttype = PKT_RING_TRUST then
    (G10ERR_UNKNOWN_PACKET, none, parse_trust s)
  else if pkttype = PKT_PLAINTEXT then
    let r := parse_plaintext pktlen s
    (r.1, r.2.1.map .plaintext, r.2.2)
  else if pkttype = PKT_COMPRESSED then
    let r := parse_compressed s
    (r.1, some (.compressed r.2.1), r.2.2)
  else if pkttype = PKT_ENCRYPTED then
    let r := parse_encrypted pktlen s
    (r.1, some (.encrypted r.2.1), r.2.2)
  else
    (G10ERR_UNKNOWN_PACKET, none, skip_packet pktlen s)

/-- The `parse` function.  `out?` is the copy-mode sink; `reqtype = 0`
accepts any type. -/
def parse (s0 : Src) (reqtype : Nat) (out? : Option (List Nat))
    (do_skip : Bool) : ParseResult :=
  match parseHeader s0 with
  | .error (e, s) => ⟨e, none, false, s, out?.getD []⟩
  | .ok h =>
    if out?.isSome ∧ h.pkttype ≠ 0 then
      let out1 := out?.getD [] ++ h.hdr
      let r := copy_packet h.pkttype h.pktlen h.src out1
      ⟨r.1, none, false, r.2.1, r.2.2⟩
    else if do_skip ∨ h.pkttype = 0 ∨ (reqtype ≠ 0 ∧ h.pkttype ≠ reqtype) then
      ⟨0, none, true, skip_packet h.pktlen h.src, out?.getD []⟩
    else
      let r := parse_body h.pkttype h.pktlen h.hdr.length h.src
      ⟨r.1, some ⟨h.pkttype, r.2.1⟩, false, r.2.2, out?.getD []⟩

/-- The `parse_packet` skip loop.  A skipped packet consumes at least the
ctb byte, so fuel `data.length + 1` never runs out. -/
def parse_packet_loop : Nat → Src → ParseResult
  | 0, s => ⟨G10ERR_GENERAL, none, false, s, []⟩
  | fuel + 1, s =>
    let r := parse s 0 none false
    if r.skip then parse_packet_loop fuel r.src else r

def parse_packet (s : Src) : ParseResult :=
  parse_packet_loop (s.data.length + 1) s

/-- The `copy_all_packets` loop: parse in copy mode while `parse` returns
0. -/
def copy_all_loop : Nat → Src → List Nat → Int × Src × List Nat
  | 0, s, out => (G10ERR_GENERAL, s, out)
  | fuel + 1, s, out =>
    let r := parse s 0 (some out) false
    if r.rc = 0 then copy_all_loop fuel r.src r.out
    else (r.rc, r.src, r.out)

def copy_all_packets (s : Src) : Int × Src × List Nat :=
  copy_all_loop (s.data.length + 1) s []

/-- Repeated `parse_packet`, collecting the packet records until the
return code is nonzero (end-of-stream or error). -/
def parse_all_loop : Nat → Src → List Packet
  | 0, _ => []
  | fuel + 1, s =>
    let r := parse_packet s
    if r.rc = 0 then
      match r.pkt with
      | some p => p :: parse_all_loop fuel r.src
      | none => parse_all_loop fuel r.src
    else []

def parse_all (s : Src) : List Packet := parse_all_loop (s.data.length + 1) s

/-! ### Claim theorems -/

/-- C1: the claim (and the spec) says a new-format first length byte of 255
reads four more big-endian bytes, while 224..254 enters partial-block mode
with initial chunk size `2^(c-224)`.  The code has the two ranges swapped:
with first length byte `0xE2` (= 226) it reads the next four bytes
`01 02 03 04` as a definite big-endian length 16909060 and does not enter
partial-block mode, and with first length byte 255 it enters partial-block
mode with initial chunk length 0 and records `pktlen = 0`. -/
theorem c1_new_format_length_swapped :
    parseHeader ⟨[0xCB, 0xE2, 1, 2, 3, 4, 99], .normal⟩ =
      .ok ⟨11, 16909060, [0xCB, 0xE2, 1, 2, 3, 4], true, ⟨[99], .normal⟩⟩ ∧
    parseHeader ⟨[0xCB, 0xFF, 9, 9], .normal⟩ =
      .ok ⟨11, 0, [0xCB, 0xFF], true, ⟨[9, 9], .partBlock 0 false⟩⟩ :=
  ⟨rfl, rfl⟩

/-- C2: the claim says that after decoding a two-byte subpacket length
(first byte 192..254) the scanner has consumed both length bytes, so the
type byte it examines is the byte following them.  The code decodes the
length as `((b-192)<<8) + next + 192` and decrements `buflen`, but never
advances the buffer past the second length byte: `subpktLen` on the bytes
`C0 00 02 ...` returns a buffer still positioned at the `00`, and a scan
for the creation-time type 2 of an area whose only subpacket is
`C0 00 | 02 <191 bytes>` (type byte 2 right after the two length bytes)
finds nothing, while a one-byte length `05 02 ...` works. -/
theorem c2_subpkt_second_length_byte_not_advanced :
    subpktLen (192 :: 0 :: 2 :: List.replicate 191 9) 194 =
      some (192, 0 :: 2 :: List.replicate 191 9, 192) ∧
    parse_sig_subpkt (some (0 :: 194 :: 192 :: 0 :: 2 :: List.replicate 191 9))
      SIGSUBPKT_SIG_CREATED = .null ∧
    parse_sig_subpkt (some [0, 6, 5, 2, 0x5F, 0, 0, 1]) SIGSUBPKT_SIG_CREATED =
      .found [0x5F, 0, 0, 1] 4 :=
  ⟨rfl, rfl, rfl⟩

/-- C3: the claim says the stored subpacket-area buffer starts with the
big-endian length, first byte `n >> 8`.  The code stores `n << 8` into a
byte, which truncates to 0: for a v4 signature whose hashed area is 256
bytes long the stored prefix is `00 00`, not `01 00` (`256 >>> 8 = 1`). -/
theorem c3_hashed_prefix_high_byte_dropped :
    (parse_signature 269
        ⟨4 :: 5 :: 0 :: 0 :: 1 :: 0 ::
          (List.replicate 256 7 ++ [0, 0, 0xAB, 0xCD, 1, 2, 3]), .normal⟩).sig.hashed_data
      = some (0 :: 0 :: List.replicate 256 7) ∧
    (256 : Nat) >>> 8 = 1 :=
  ⟨rfl, rfl⟩

/-- C5: the claim says a well-framed ring-trust packet yields return code 0
with exactly `pktlen` body bytes consumed.  The `PKT_RING_TRUST` case of
the dispatch switch never assigns `rc`, so `parse_packet` returns the
default `G10ERR_UNKNOWN_PACKET`, and `parse_trust` reads exactly one byte
and never calls `skip_rest`: with `pktlen = 2` one body byte is left
unconsumed. -/
theorem c5_ring_trust_unknown_packet_rc :
    parse_packet ⟨[0xB0, 1, 42], .normal⟩ =
      ⟨G10ERR_UNKNOWN_PACKET, some ⟨PKT_RING_TRUST, none⟩, false, ⟨[], .normal⟩, []⟩ ∧
    parse_packet ⟨[0xB0, 2, 42, 43], .normal⟩ =
      ⟨G10ERR_UNKNOWN_PACKET, some ⟨PKT_RING_TRUST, none⟩, false, ⟨[43], .normal⟩, []⟩ ∧
    G10ERR_UNKNOWN_PACKET ≠ 0 :=
  ⟨rfl, rfl, by decide⟩

/-- C4 counterexample: an RSA secret key certificate with a nonzero
protection algorithm byte (here 1) is marked protected, but the 8 IV bytes
read from the stream (`0B..12`) are not stored: the record's IV stays at
its zero-initialised value, contradicting the claim that the IV bytes are
stored for every nonzero protection algorithm. -/
theorem c4_rsa_iv_not_stored :
    ((parse_certificate PKT_SECRET_CERT 35 2
        ⟨[4, 0, 0, 0, 1, 1] ++ [0, 1, 5] ++ [0, 1, 3] ++ [1] ++
          [11, 12, 13, 14, 15, 16, 17, 18] ++
          [0, 1, 9] ++ [0, 1, 9] ++ [0, 1, 9] ++ [0, 1, 9] ++ [0, 7], .normal⟩).body =
      .secret_cert
        ⟨1, 0, 2, 4, 1, true, ⟨1, S2K.clear, List.replicate 8 0⟩,
         .rsa (some 5) (some 3), .rsa (some 9) (some 9) (some 9) (some 9), 7⟩) ∧
    List.replicate 8 0 ≠ [11, 12, 13, 14, 15, 16, 17, 18] :=
  ⟨rfl, by decide⟩

/-- C6 counterexample: the claim says a symkey-enc packet with
`pktlen = 201` (outside 4..200) is abandoned with no record built.  The
code checks `pktlen > 200` only after consuming the version byte, so a
201-byte packet passes the check and a record with a 197-byte session key
is built. -/
theorem c6_pktlen_201_builds_record :
    (parse_symkeyenc 201 ⟨4 :: 1 :: 0 :: 1 :: List.replicate 197 7, .normal⟩).k =
      some ⟨4, 1, ⟨0, 1, List.replicate 8 0, 0⟩, 197, List.replicate 197 7⟩ :=
  rfl

/-- C8: `parse` (and hence `parse_packet`) returns -1 when the stream is
already exhausted before the first header byte, a negative value distinct
from the positive error taxonomy, and returns the positive
`G10ERR_INVALID_PACKET` whenever the first byte's high bit is clear; in
both cases no packet record is produced. -/
theorem c8_eos_and_invalid_ctb :
    parse_packet ⟨[], .normal⟩ = ⟨-1, none, false, ⟨[], .normal⟩, []⟩ ∧
    ((0 : Int) < G10ERR_GENERAL ∧ (0 : Int) < G10ERR_UNKNOWN_PACKET ∧
     (0 : Int) < G10ERR_INVALID_PACKET ∧ (0 : Int) < G10ERR_WRITE_FILE ∧
     (0 : Int) < G10ERR_READ_FILE) ∧
    ∀ (c : Nat) (t : List Nat), c &&& 0x80 = 0 →
      (parse_packet ⟨c :: t, .normal⟩).rc = G10ERR_INVALID_PACKET ∧
      (parse_packet ⟨c :: t, .normal⟩).pkt = none := by
  refine ⟨rfl, by decide, ?_⟩
  intro c t hc
  simp [parse_packet, parse_packet_loop, parse, parseHeader, hc]

/-- C8 witness: the empty stream and the byte 0x10 (high bit clear). -/
theorem c8_eos_and_invalid_ctb_witness :
    (16 &&& 0x80 = 0) ∧
    (parse_packet ⟨[16, 5], .normal⟩).rc = G10ERR_INVALID_PACKET ∧
    (parse_packet ⟨[16, 5], .normal⟩).pkt = none :=
  ⟨by decide, c8_eos_and_invalid_ctb.2.2 16 [5] (by decide)⟩

/-- C10: whenever the guards of `parse_symkeyenc` pass (pktlen at least 4,
version byte 4, at most 200 bytes remaining after the version byte, S2K
mode 0, 1 or 4, and the mode's minimum length available), the `pktlen`
counter is exactly 0 at the `assert(!pktlen)`: the salt, count and
session-key loops consume precisely the remaining counter. -/
theorem c10_symkeyenc_assert_never_fails (pktlen c m h : Nat) (t : List Nat)
    (h4 : 4 ≤ pktlen) (h200 : pktlen - 1 ≤ 200)
    (hm : m = 0 ∨ m = 1 ∨ m = 4)
    (hmin : (if m = 0 then 0 else if m = 1 then 8 else 12) ≤ pktlen - 4) :
    (parse_symkeyenc pktlen ⟨4 :: c :: m :: h :: t, .normal⟩).pktlenAtAssert =
      some 0 := by
  have h4' : ¬ (pktlen < 4) := by omega
  have h200' : ¬ (pktlen - 1 > 200) := by omega
  rcases hm with rfl | rfl | rfl
  · simp only [parse_symkeyenc, h4', if_false, iobuf_get_noeof_normal_cons]
    simp only [if_neg h200', if_neg (by decide : ¬ (4 ≠ 4))]
    simp [readCounted_counter]
  · have hmin' : (8 : Nat) ≤ pktlen - 4 := by simpa using hmin
    simp only [parse_symkeyenc, h4', if_false, iobuf_get_noeof_normal_cons]
    simp only [if_neg h200', if_neg (by decide : ¬ (4 ≠ 4))]
    simp [readCounted_counter, if_neg (show ¬ ((8 : Nat) > pktlen - 1 - 3) by omega)]
    omega
  · have hmin' : (12 : Nat) ≤ pktlen - 4 := by simpa using hmin
    simp only [parse_symkeyenc, h4', if_false, iobuf_get_noeof_normal_cons]
    simp only [if_neg h200', if_neg (by decide : ¬ (4 ≠ 4))]
    simp [readCounted_counter, if_neg (show ¬ ((12 : Nat) > pktlen - 1 - 3) by omega)]
    omega

/-- C10 witness: a minimal mode-0 packet of length 5. -/
theorem c10_symkeyenc_assert_never_fails_witness :
    (parse_symkeyenc 5 ⟨[4, 1, 0, 1, 9], .normal⟩).pktlenAtAssert = some 0 :=
  c10_symkeyenc_assert_never_fails 5 1 0 1 [9] (by decide) (by decide)
    (Or.inl rfl) (by decide)

/-- C7: for every legacy-format header byte (high bit set, bit 6 clear) the
packet type is `(ctb >> 2) & 0xF`; with `(ctb & 3) = 3` the length-field
size is 0, the decoded `pktlen` is 0 and the source is put into block mode
unless the packet type is compressed; with `(ctb & 3)` equal to 0, 1 or 2
the length field is 1, 2 or 4 bytes (`1 << (ctb & 3)`) and the decoded
`pktlen` is their big-endian interpretation. -/
theorem c7_legacy_header_decode (ctb : Nat)
    (hhi : ctb &&& 0x80 ≠ 0) (hfmt : ctb &&& 0x40 = 0) :
    (∀ t : List Nat, ctb &&& 3 = 3 →
      parseHeader ⟨ctb :: t, .normal⟩ =
        .ok ⟨(ctb >>> 2) &&& 0xF, 0, [ctb], false,
             if (ctb >>> 2) &&& 0xF ≠ PKT_COMPRESSED then ⟨t, .block⟩
             else ⟨t, .normal⟩⟩) ∧
    (∀ (b0 : Nat) (t : List Nat), ctb &&& 3 = 0 →
      parseHeader ⟨ctb :: b0 :: t, .normal⟩ =
        .ok ⟨(ctb >>> 2) &&& 0xF, beVal [b0], [ctb, b0], false, ⟨t, .normal⟩⟩) ∧
    (∀ (b0 b1 : Nat) (t : List Nat), ctb &&& 3 = 1 → b1 < 256 →
      parseHeader ⟨ctb :: b0 :: b1 :: t, .normal⟩ =
        .ok ⟨(ctb >>> 2) &&& 0xF, beVal [b0, b1], [ctb, b0, b1], false,
             ⟨t, .normal⟩⟩) ∧
    (∀ (b0 b1 b2 b3 : Nat) (t : List Nat), ctb &&& 3 = 2 →
        b1 < 256 → b2 < 256 → b3 < 256 →
      parseHeader ⟨ctb :: b0 :: b1 :: b2 :: b3 :: t, .normal⟩ =
        .ok ⟨(ctb >>> 2) &&& 0xF, beVal [b0, b1, b2, b3],
             [ctb, b0, b1, b2, b3], false, ⟨t, .normal⟩⟩) := by
  refine ⟨?_, ?_, ?_, ?_⟩
  · intro t h3
    simp [parseHeader, hhi, hfmt, h3, iobuf_set_block_mode]
  · intro b0 t h3
    simp [parseHeader, hhi, hfmt, h3, legacyLenLoop, beVal]
  · intro b0 b1 t h3 hb1
    simp [parseHeader, hhi, hfmt, h3, legacyLenLoop, beVal,
      shiftLeft_lor_byte _ _ hb1]
  · intro b0 b1 b2 b3 t h3 hb1 hb2 hb3
    simp only [parseHeader, hhi, hfmt, h3, legacyLenLoop, beVal,
      iobuf_get_normal_cons, iobuf_get_noeof_normal_cons]
    rw [Nat.zero_shiftLeft, Nat.zero_or, shiftLeft_lor_byte _ _ hb1,
      shiftLeft_lor_byte _ _ hb2, shiftLeft_lor_byte _ _ hb3]
    simp

/-- C7 witness: ctb `0xB5` (legacy, type 13, two-byte length) with length
bytes `01 02`. -/
theorem c7_legacy_header_decode_witness :
    parseHeader ⟨[0xB5, 1, 2, 9], .normal⟩ =
      .ok ⟨13, 258, [0xB5, 1, 2], false, ⟨[9], .normal⟩⟩ :=
  (c7_legacy_header_decode 0xB5 (by decide) (by decide)).2.2.1 1 2 [9]
    (by decide) (by decide)

/-- C6 amended: `parse_symkeyenc` builds a record exactly when
`4 ≤ pktlen ≤ 201` (the `≤ 200` limit is applied to the remaining length
after the version byte), the version byte is 4, and the S2K mode is 0, 1
or 4 with its minimum length available; in the record the session key is
all bytes remaining after the S2K fields.  Every other packet (too short,
too large, unknown version, unknown mode, mode minimum unavailable) is
abandoned with no record built and its remaining bytes consumed. -/
theorem c6_symkeyenc_guards_amended :
    (∀ (pktlen c h : Nat) (rest : List Nat),
        4 ≤ pktlen → pktlen ≤ 201 → pktlen - 4 ≤ rest.length →
        parse_symkeyenc pktlen ⟨4 :: c :: 0 :: h :: rest, .normal⟩ =
          ⟨0, some ⟨4, c, ⟨0, h, List.replicate 8 0, 0⟩, pktlen - 4,
              rest.take (pktlen - 4)⟩, some 0,
           ⟨rest.drop (pktlen - 4), .normal⟩⟩) ∧
    (∀ (pktlen c h : Nat) (salt rest : List Nat),
        12 ≤ pktlen → pktlen ≤ 201 → salt.length = 8 →
        pktlen - 12 ≤ rest.length →
        parse_symkeyenc pktlen ⟨4 :: c :: 1 :: h :: (salt ++ rest), .normal⟩ =
          ⟨0, some ⟨4, c, ⟨1, h, salt, 0⟩, pktlen - 12,
              rest.take (pktlen - 12)⟩, some 0,
           ⟨rest.drop (pktlen - 12), .normal⟩⟩) ∧
    (∀ (pktlen c h n0 n1 n2 n3 : Nat) (salt rest : List Nat),
        16 ≤ pktlen → pktlen ≤ 201 → salt.length = 8 →
        n1 < 256 → n2 < 256 → n3 < 256 →
        pktlen - 16 ≤ rest.length →
        parse_symkeyenc pktlen
            ⟨4 :: c :: 4 :: h :: (salt ++ n0 :: n1 :: n2 :: n3 :: rest), .normal⟩ =
          ⟨0, some ⟨4, c, ⟨4, h, salt, beVal [n0, n1, n2, n3]⟩, pktlen - 16,
              rest.take (pktlen - 16)⟩, some 0,
           ⟨rest.drop (pktlen - 16), .normal⟩⟩) ∧
    (∀ (pktlen : Nat) (d : List Nat), pktlen < 4 →
        parse_symkeyenc pktlen ⟨d, .normal⟩ =
          ⟨0, none, none, ⟨d.drop pktlen, .normal⟩⟩) ∧
    (∀ (pktlen v : Nat) (rest : List Nat), 4 ≤ pktlen → v ≠ 4 →
        parse_symkeyenc pktlen ⟨v :: rest, .normal⟩ =
          ⟨0, none, none, ⟨rest.drop (pktlen - 1), .normal⟩⟩) ∧
    (∀ (pktlen : Nat) (rest : List Nat), 202 ≤ pktlen →
        parse_symkeyenc pktlen ⟨4 :: rest, .normal⟩ =
          ⟨0, none, none, ⟨rest.drop (pktlen - 1), .normal⟩⟩) ∧
    (∀ (pktlen c m h : Nat) (rest : List Nat),
        4 ≤ pktlen → pktlen ≤ 201 → m ≠ 0 → m ≠ 1 → m ≠ 4 →
        parse_symkeyenc pktlen ⟨4 :: c :: m :: h :: rest, .normal⟩ =
          ⟨0, none, none, ⟨rest.drop (pktlen - 4), .normal⟩⟩) ∧
    (∀ (pktlen c m h : Nat) (rest : List Nat),
        4 ≤ pktlen → pktlen ≤ 201 → (m = 1 ∨ m = 4) →
        pktlen - 4 < (if m = 1 then 8 else 12) →
        parse_symkeyenc pktlen ⟨4 :: c :: m :: h :: rest, .normal⟩ =
          ⟨0, none, none, ⟨rest.drop (pktlen - 4), .normal⟩⟩) := by
  refine ⟨?_, ?_, ?_, ?_, ?_, ?_, ?_, ?_⟩
  · intro pktlen c h rest hp4 hp201 hav
    have h4' : ¬ (pktlen < 4) := by omega
    have h200' : ¬ (pktlen - 1 > 200) := by omega
    simp only [parse_symkeyenc, h4', if_false, iobuf_get_noeof_normal_cons]
    simp only [if_neg h200', if_neg (by decide : ¬ (4 ≠ 4))]
    rw [show pktlen - 1 - 3 = pktlen - 4 from by omega]
    simp only [reduceIte, if_true]
    simp only [show ((0 : Nat) = 1 ∨ (0 : Nat) = 4) = False from by simp, if_false]
    simp only [if_neg (show ¬ ((0 : Nat) > pktlen - 4) from by omega)]
    simp only [show ((0 : Nat) = 4) = False from by simp, if_false, Nat.sub_zero]
    rw [readCounted_normal (pktlen - 4) (pktlen - 4) rest (by omega) hav]
    simp
  · intro pktlen c h salt rest hp12 hp201 hs hav
    have h4' : ¬ (pktlen < 4) := by omega
    have h200' : ¬ (pktlen - 1 > 200) := by omega
    simp only [parse_symkeyenc, h4', if_false, iobuf_get_noeof_normal_cons]
    simp only [if_neg h200', if_neg (by decide : ¬ (4 ≠ 4))]
    rw [show pktlen - 1 - 3 = pktlen - 4 from by omega]
    simp only [show ((1 : Nat) = 0) = False from by simp,
      show ((1 : Nat) = 1) = True from by simp,
      show ((1 : Nat) = 4) = False from by simp,
      true_or, false_or, or_false, or_true, if_false, if_true]
    simp only [if_neg (show ¬ ((8 : Nat) > pktlen - 4) from by omega)]
    rw [readCounted_normal 8 (pktlen - 4) (salt ++ rest) (by omega)
        (by simp [hs])]
    rw [show (salt ++ rest).take 8 = salt from by
          rw [← hs]; exact List.take_left salt rest]
    rw [show (salt ++ rest).drop 8 = rest from by
          rw [← hs]; exact List.drop_left salt rest]
    rw [readCounted_normal (pktlen - 4 - 8) (pktlen - 4 - 8) rest (by omega)
        (by omega)]
    rw [show pktlen - 4 - 8 = pktlen - 12 from by omega]
    simp [hs, fill8]
  · intro pktlen c h n0 n1 n2 n3 salt rest hp16 hp201 hs h1 h2 h3 hav
    have h4' : ¬ (pktlen < 4) := by omega
    have h200' : ¬ (pktlen - 1 > 200) := by omega
    simp only [parse_symkeyenc, h4', if_false, iobuf_get_noeof_normal_cons]
    simp only [if_neg h200', if_neg (by decide : ¬ (4 ≠ 4))]
    rw [show pktlen - 1 - 3 = pktlen - 4 from by omega]
    simp only [show ((4 : Nat) = 0) = False from by simp,
      show ((4 : Nat) = 1) = False from by simp,
      show ((4 : Nat) = 4) = True from by simp,
      true_or, false_or, or_false, or_true, if_false, if_true]
    simp only [if_neg (show ¬ ((12 : Nat) > pktlen - 4) from by omega)]
    rw [readCounted_normal 8 (pktlen - 4) (salt ++ n0 :: n1 :: n2 :: n3 :: rest)
        (by omega) (by simp [hs])]
    rw [show (salt ++ n0 :: n1 :: n2 :: n3 :: rest).take 8 = salt from by
          rw [← hs]; exact List.take_left salt _]
    rw [show (salt ++ n0 :: n1 :: n2 :: n3 :: rest).drop 8 =
          n0 :: n1 :: n2 :: n3 :: rest from by
          rw [← hs]; exact List.drop_left salt _]
    rw [read_32_beVal n0 n1 n2 n3 rest h1 h2 h3]
    simp only [show pktlen - 4 - 8 - 4 = pktlen - 16 from by omega,
      show pktlen - 4 - 12 = pktlen - 16 from by omega]
    rw [readCounted_normal (pktlen - 16) (pktlen - 16) rest (by omega) (by omega)]
    simp [hs, fill8]
  · intro pktlen d hlt
    simp [parse_symkeyenc, hlt]
  · intro pktlen v rest hp hv
    have h4' : ¬ (pktlen < 4) := by omega
    simp [parse_symkeyenc, h4', hv]
  · intro pktlen rest hp
    have h4' : ¬ (pktlen < 4) := by omega
    have h200 : pktlen - 1 > 200 := by omega
    simp [parse_symkeyenc, h4', h200]
  · intro pktlen c m h rest hp hp201 h0 hm1 hm4
    have h4' : ¬ (pktlen < 4) := by omega
    have h200' : ¬ (pktlen - 1 > 200) := by omega
    simp only [parse_symkeyenc, h4', if_false, iobuf_get_noeof_normal_cons]
    simp only [if_neg h200', if_neg (by decide : ¬ (4 ≠ 4)), h0, hm1, hm4,
      if_false]
    rw [show pktlen - 1 - 3 = pktlen - 4 from by omega]
    simp
  · intro pktlen c m h rest hp hp201 hm hshort
    have h4' : ¬ (pktlen < 4) := by omega
    have h200' : ¬ (pktlen - 1 > 200) := by omega
    rcases hm with rfl | rfl
    · simp only [show ((1 : Nat) = 1) = True from by simp, if_true] at hshort
      simp only [parse_symkeyenc, h4', if_false, iobuf_get_noeof_normal_cons]
      simp only [if_neg h200', if_neg (by decide : ¬ (4 ≠ 4))]
      simp only [show ((1 : Nat) = 0) = False from by simp,
        show ((1 : Nat) = 1) = True from by simp,
        show ((1 : Nat) = 4) = False from by simp,
        true_or, false_or, or_false, or_true, if_false, if_true]
      rw [show pktlen - 1 - 3 = pktlen - 4 from by omega]
      rw [if_pos (show (8 : Nat) > pktlen - 4 from by omega)]
      simp
    · simp only [show ((4 : Nat) = 1) = False from by simp, if_false] at hshort
      simp only [parse_symkeyenc, h4', if_false, iobuf_get_noeof_normal_cons]
      simp only [if_neg h200', if_neg (by decide : ¬ (4 ≠ 4))]
      simp only [show ((4 : Nat) = 0) = False from by simp,
        show ((4 : Nat) = 1) = False from by simp,
        show ((4 : Nat) = 4) = True from by simp,
        true_or, false_or, or_false, or_true, if_false, if_true]
      rw [show pktlen - 1 - 3 = pktlen - 4 from by omega]
      rw [if_pos (show (12 : Nat) > pktlen - 4 from by omega)]
      simp

/-- C6 amended witness: the mode-0 build case at `pktlen = 6` and the
unknown-version abandon case. -/
theorem c6_symkeyenc_guards_amended_witness :
    parse_symkeyenc 6 ⟨[4, 7, 0, 2, 50, 51], .normal⟩ =
      ⟨0, some ⟨4, 7, ⟨0, 2, List.replicate 8 0, 0⟩, 2, [50, 51]⟩, some 0,
       ⟨[], .normal⟩⟩ ∧
    parse_symkeyenc 4 ⟨[3, 7, 0, 2], .normal⟩ =
      ⟨0, none, none, ⟨[], .normal⟩⟩ := by
  constructor
  · exact c6_symkeyenc_guards_amended.1 6 7 2 [50, 51] (by decide) (by decide)
      (by decide)
  · exact c6_symkeyenc_guards_amended.2.2.2.2.1 4 3 [7, 0, 2] (by decide)
      (by decide)

/-! ### IV storage in key certificates (C4) -/

section

attribute [local irreducible] srcPop iobuf_get iobuf_get_noeof read_16 read_32 readCounted mpiStep skip_rest

set_option maxHeartbeats 8000000 in
/-- C4 amended: on a well-formed secret key certificate a nonzero
protection algorithm byte marks the record protected.  For ElGamal and DSA
certificates (any of the legacy one-byte form, or the 255-escaped S2K form
with mode 0) the 8 IV bytes read from the stream are stored in the
record's protection IV field; for RSA certificates the 8 IV bytes are read
but stored only when the protection algorithm byte equals the Blowfish-160
identifier, the IV field otherwise keeping its zero-initialised value.  A
zero protection byte leaves the record unprotected with no IV read.  Each
conjunct covers one algorithm family and protection shape, for versions 4,
2 and 3. -/
theorem c4_iv_storage_amended :
    (∀ (v t0 t1 t2 t3 a c0 c1 pktlen hdrlen : Nat) (vd p g y iv x : List Nat),
        VersionVd v vd → (∀ b ∈ vd, b < 256) →
        t1 < 256 → t2 < 256 → t3 < 256 → c1 < 256 →
        IsMpiEnc p →
        IsMpiEnc g →
        IsMpiEnc y →
        IsMpiEnc x →
        iv.length = 8 →
        0 < a →
        a ≠ 255 →
        pktlen = 5 + vd.length + 1 + p.length + g.length + y.length + 1 + 8 + x.length + 2 →
        parse_certificate PKT_SECRET_CERT pktlen hdrlen
          ⟨v :: t0 :: t1 :: t2 :: t3 :: (vd ++ 16 :: (p ++ (g ++ (y ++ a :: (iv ++ (x ++ [c0, c1])))))), .normal⟩ =
          ⟨0, .secret_cert ⟨beVal [t0, t1, t2, t3], beVal vd, hdrlen, v,
              16, true,
              ⟨a, ⟨0, (if a = CIPHER_ALGO_BLOWFISH160 then DIGEST_ALGO_RMD160
                       else DIGEST_ALGO_MD5), List.replicate 8 0, 0⟩, iv⟩,
              .elg (some (mpiVal p)) (some (mpiVal g)) (some (mpiVal y)),
              .elg (some (mpiVal x)), beVal [c0, c1]⟩,
           ⟨[], .normal⟩⟩) ∧
    (∀ (v t0 t1 t2 t3 c0 c1 pktlen hdrlen : Nat) (vd p g y x : List Nat),
        VersionVd v vd → (∀ b ∈ vd, b < 256) →
        t1 < 256 → t2 < 256 → t3 < 256 → c1 < 256 →
        IsMpiEnc p →
        IsMpiEnc g →
        IsMpiEnc y →
        IsMpiEnc x →
        pktlen = 5 + vd.length + 1 + p.length + g.length + y.length + 1 + x.length + 2 →
        parse_certificate PKT_SECRET_CERT pktlen hdrlen
          ⟨v :: t0 :: t1 :: t2 :: t3 :: (vd ++ 16 :: (p ++ (g ++ (y ++ 0 :: (x ++ [c0, c1]))))), .normal⟩ =
          ⟨0, .secret_cert ⟨beVal [t0, t1, t2, t3], beVal vd, hdrlen, v,
              16, false, Protect.clear,
              .elg (some (mpiVal p)) (some (mpiVal g)) (some (mpiVal y)),
              .elg (some (mpiVal x)), beVal [c0, c1]⟩,
           ⟨[], .normal⟩⟩) ∧
    (∀ (v t0 t1 t2 t3 a2 h2 c0 c1 pktlen hdrlen : Nat) (vd p g y iv x : List Nat),
        VersionVd v vd → (∀ b ∈ vd, b < 256) →
        t1 < 256 → t2 < 256 → t3 < 256 → c1 < 256 →
        IsMpiEnc p →
        IsMpiEnc g →
        IsMpiEnc y →
        IsMpiEnc x →
        iv.length = 8 →
        pktlen = 5 + vd.length + 1 + p.length + g.length + y.length + 1 + 3 + 8 + x.length + 2 →
        parse_certificate PKT_SECRET_CERT pktlen hdrlen
          ⟨v :: t0 :: t1 :: t2 :: t3 :: (vd ++ 16 :: (p ++ (g ++ (y ++ 255 :: a2 :: 0 :: h2 :: (iv ++ (x ++ [c0, c1])))))), .normal⟩ =
          ⟨0, .secret_cert ⟨beVal [t0, t1, t2, t3], beVal vd, hdrlen, v,
              16, true, ⟨a2, ⟨0, h2, List.replicate 8 0, 0⟩, iv⟩,
              .elg (some (mpiVal p)) (some (mpiVal g)) (some (mpiVal y)),
              .elg (some (mpiVal x)), beVal [c0, c1]⟩,
           ⟨[], .normal⟩⟩) ∧
    (∀ (v t0 t1 t2 t3 a c0 c1 pktlen hdrlen : Nat) (vd p q g y iv x : List Nat),
        VersionVd v vd → (∀ b ∈ vd, b < 256) →
        t1 < 256 → t2 < 256 → t3 < 256 → c1 < 256 →
        IsMpiEnc p →
        IsMpiEnc q →
        IsMpiEnc g →
        IsMpiEnc y →
        IsMpiEnc x →
        iv.length = 8 →
        0 < a →
        a ≠ 255 →
        pktlen = 5 + vd.length + 1 + p.length + q.length + g.length + y.length + 1 + 8 + x.length + 2 →
        parse_certificate PKT_SECRET_CERT pktlen hdrlen
          ⟨v :: t0 :: t1 :: t2 :: t3 :: (vd ++ 17 :: (p ++ (q ++ (g ++ (y ++ a :: (iv ++ (x ++ [c0, c1]))))))), .normal⟩ =
          ⟨0, .secret_cert ⟨beVal [t0, t1, t2, t3], beVal vd, hdrlen, v,
              17, true,
              ⟨a, ⟨0, DIGEST_ALGO_MD5, List.replicate 8 0, 0⟩, iv⟩,
              .dsa (some (mpiVal p)) (some (mpiVal q)) (some (mpiVal g)) (some (mpiVal y)),
              .dsa (some (mpiVal x)), beVal [c0, c1]⟩,
           ⟨[], .normal⟩⟩) ∧
    (∀ (v t0 t1 t2 t3 c0 c1 pktlen hdrlen : Nat) (vd p q g y x : List Nat),
        VersionVd v vd → (∀ b ∈ vd, b < 256) →
        t1 < 256 → t2 < 256 → t3 < 256 → c1 < 256 →
        IsMpiEnc p →
        IsMpiEnc q →
        IsMpiEnc g →
        IsMpiEnc y →
        IsMpiEnc x →
        pktlen = 5 + vd.length + 1 + p.length + q.length + g.length + y.length + 1 + x.length + 2 →
        parse_certificate PKT_SECRET_CERT pktlen hdrlen
          ⟨v :: t0 :: t1 :: t2 :: t3 :: (vd ++ 17 :: (p ++ (q ++ (g ++ (y ++ 0 :: (x ++ [c0, c1])))))), .normal⟩ =
          ⟨0, .secret_cert ⟨beVal [t0, t1, t2, t3], beVal vd, hdrlen, v,
              17, false, Protect.clear,
              .dsa (some (mpiVal p)) (some (mpiVal q)) (some (mpiVal g)) (some (mpiVal y)),
              .dsa (some (mpiVal x)), beVal [c0, c1]⟩,
           ⟨[], .normal⟩⟩) ∧
    (∀ (v t0 t1 t2 t3 a2 h2 c0 c1 pktlen hdrlen : Nat) (vd p q g y iv x : List Nat),
        VersionVd v vd → (∀ b ∈ vd, b < 256) →
        t1 < 256 → t2 < 256 → t3 < 256 → c1 < 256 →
        IsMpiEnc p →
        IsMpiEnc q →
        IsMpiEnc g →
        IsMpiEnc y →
        IsMpiEnc x →
        iv.length = 8 →
        pktlen = 5 + vd.length + 1 + p.length + q.length + g.length + y.length + 1 + 3 + 8 + x.length + 2 →
        parse_certificate PKT_SECRET_CERT pktlen hdrlen
          ⟨v :: t0 :: t1 :: t2 :: t3 :: (vd ++ 17 :: (p ++ (q ++ (g ++ (y ++ 255 :: a2 :: 0 :: h2 :: (iv ++ (x ++ [c0, c1]))))))), .normal⟩ =
          ⟨0, .secret_cert ⟨beVal [t0, t1, t2, t3], beVal vd, hdrlen, v,
              17, true, ⟨a2, ⟨0, h2, List.replicate 8 0, 0⟩, iv⟩,
              .dsa (some (mpiVal p)) (some (mpiVal q)) (some (mpiVal g)) (some (mpiVal y)),
              .dsa (some (mpiVal x)), beVal [c0, c1]⟩,
           ⟨[], .normal⟩⟩) ∧
    (∀ (v t0 t1 t2 t3 a c0 c1 pktlen hdrlen : Nat) (vd n e iv xd xp xq xu : List Nat),
        VersionVd v vd → (∀ b ∈ vd, b < 256) →
        t1 < 256 → t2 < 256 → t3 < 256 → c1 < 256 →
        IsMpiEnc n →
        IsMpiEnc e →
        IsMpiEnc xd →
        IsMpiEnc xp →
        IsMpiEnc xq →
        IsMpiEnc xu →
        iv.length = 8 →
        0 < a →
        pktlen = 5 + vd.length + 1 + n.length + e.length + 1 + 8 + xd.length + xp.length + xq.length + xu.length + 2 →
        parse_certificate PKT_SECRET_CERT pktlen hdrlen
          ⟨v :: t0 :: t1 :: t2 :: t3 :: (vd ++ 1 :: (n ++ (e ++ a :: (iv ++ (xd ++ (xp ++ (xq ++ (xu ++ [c0, c1])))))))), .normal⟩ =
          ⟨0, .secret_cert ⟨beVal [t0, t1, t2, t3], beVal vd, hdrlen, v,
              1, true,
              ⟨a, S2K.clear,
               (if a = CIPHER_ALGO_BLOWFISH160 then iv else List.replicate 8 0)⟩,
              .rsa (some (mpiVal n)) (some (mpiVal e)),
              .rsa (some (mpiVal xd)) (some (mpiVal xp)) (some (mpiVal xq))
                (some (mpiVal xu)), beVal [c0, c1]⟩,
           ⟨[], .normal⟩⟩) ∧
    (∀ (v t0 t1 t2 t3 c0 c1 pktlen hdrlen : Nat) (vd n e xd xp xq xu : List Nat),
        VersionVd v vd → (∀ b ∈ vd, b < 256) →
        t1 < 256 → t2 < 256 → t3 < 256 → c1 < 256 →
        IsMpiEnc n →
        IsMpiEnc e →
        IsMpiEnc xd →
        IsMpiEnc xp →
        IsMpiEnc xq →
        IsMpiEnc xu →
        pktlen = 5 + vd.length + 1 + n.length + e.length + 1 + xd.length + xp.length + xq.length + xu.length + 2 →
        parse_certificate PKT_SECRET_CERT pktlen hdrlen
          ⟨v :: t0 :: t1 :: t2 :: t3 :: (vd ++ 1 :: (n ++ (e ++ 0 :: (xd ++ (xp ++ (xq ++ (xu ++ [c0, c1]))))))), .normal⟩ =
          ⟨0, .secret_cert ⟨beVal [t0, t1, t2, t3], beVal vd, hdrlen, v,
              1, false, Protect.clear,
              .rsa (some (mpiVal n)) (some (mpiVal e)),
              .rsa (some (mpiVal xd)) (some (mpiVal xp)) (some (mpiVal xq))
                (some (mpiVal xu)), beVal [c0, c1]⟩,
           ⟨[], .normal⟩⟩) := by
  refine ⟨?_, ?_, ?_, ?_, ?_, ?_, ?_, ?_⟩
  · intro v t0 t1 t2 t3 a c0 c1 pktlen hdrlen vd p g y iv x hv hvdb ht1 ht2 ht3 hc1 hp hg hy hx hiv ha0 ha255 hpl
    have hp2 := IsMpiEnc_length p hp
    have hg2 := IsMpiEnc_length g hg
    have hy2 := IsMpiEnc_length y hy
    have hx2 := IsMpiEnc_length x hx
    rcases hv with ⟨rfl, rfl⟩ | ⟨hv23, d0, d1, rfl⟩
    · simp only [List.length_nil] at hpl
      simp only [parse_certificate,
        parse_protect,
        protect_iv,
        fill8,
        iobuf_get_noeof_normal_cons,
        List.cons_append,
        List.nil_append,
        read_32_beVal' t0 t1 t2 t3 ht1 ht2 ht3,
        mpiStep_enc' p hp,
        mpiStep_enc' g hg,
        mpiStep_enc' y hy,
        mpiStep_enc' x hx,
        read_16_beVal' c0 c1 hc1,
        PKT_SECRET_CERT,
        PKT_SECKEY_SUBCERT,
        PKT_PUBLIC_CERT,
        PKT_PUBKEY_SUBCERT,
        PUBKEY_ALGO_DSA,
        CIPHER_ALGO_BLOWFISH160,
        DIGEST_ALGO_RMD160,
        DIGEST_ALGO_MD5,
        show ((5 : Nat) = 14 ∧ (4 : Nat) = 35) = False from by simp,
        show ((4 : Nat) ≠ 4 ∧ (4 : Nat) ≠ 2 ∧ (4 : Nat) ≠ 3) = False from by simp,
        show ((4 : Nat) = 4) = True from by simp,
        show ((5 : Nat) = 5 ∨ (5 : Nat) = 7) = True from by simp,
        show ((5 : Nat) = 6 ∨ (5 : Nat) = 14) = False from by simp,
        show is_ELGAMAL 16 = true from by decide,
        eq_false (show ¬ (pktlen - 1 < 11) from by omega),
        eq_false (show ¬ (a = 0) from by omega),
        eq_false ha255,
        eq_false (show ¬ (pktlen - 1 - 4 - 1 - p.length - g.length - y.length - 1 < 8) from by omega),
        readCounted_normal 8 (pktlen - 1 - 4 - 1 - p.length - g.length - y.length - 1) (iv ++ (x ++ [c0, c1])) (by omega) (by simp [hiv]),
        List.take_left' hiv,
        List.drop_left' hiv,
        if_true,
        if_false,
        skip_rest_normal,
        List.drop_nil]
      try simp [hiv, fill8, S2K.clear, Protect.clear]
    · have hd1 : d1 < 256 := hvdb d1 (by simp)
      simp only [List.length_cons, List.length_nil] at hpl
      rcases hv23 with rfl | rfl
      · simp only [parse_certificate,
          parse_protect,
          protect_iv,
          fill8,
          iobuf_get_noeof_normal_cons,
          List.cons_append,
          List.nil_append,
          read_32_beVal' t0 t1 t2 t3 ht1 ht2 ht3,
          read_16_beVal' d0 d1 hd1,
          mpiStep_enc' p hp,
          mpiStep_enc' g hg,
          mpiStep_enc' y hy,
          mpiStep_enc' x hx,
          read_16_beVal' c0 c1 hc1,
          PKT_SECRET_CERT,
          PKT_SECKEY_SUBCERT,
          PKT_PUBLIC_CERT,
          PKT_PUBKEY_SUBCERT,
          PUBKEY_ALGO_DSA,
          CIPHER_ALGO_BLOWFISH160,
          DIGEST_ALGO_RMD160,
          DIGEST_ALGO_MD5,
          show ((5 : Nat) = 14 ∧ (2 : Nat) = 35) = False from by simp,
          show ((2 : Nat) ≠ 4 ∧ (2 : Nat) ≠ 2 ∧ (2 : Nat) ≠ 3) = False from by simp,
          show ((2 : Nat) = 4) = False from by simp,
          show ((5 : Nat) = 5 ∨ (5 : Nat) = 7) = True from by simp,
          show ((5 : Nat) = 6 ∨ (5 : Nat) = 14) = False from by simp,
          show is_ELGAMAL 16 = true from by decide,
          eq_false (show ¬ (pktlen - 1 < 11) from by omega),
          eq_false (show ¬ (a = 0) from by omega),
          eq_false ha255,
          eq_false (show ¬ (pktlen - 1 - 6 - 1 - p.length - g.length - y.length - 1 < 8) from by omega),
          readCounted_normal 8 (pktlen - 1 - 6 - 1 - p.length - g.length - y.length - 1) (iv ++ (x ++ [c0, c1])) (by omega) (by simp [hiv]),
          List.take_left' hiv,
          List.drop_left' hiv,
          if_true,
          if_false,
          skip_rest_normal,
          List.drop_nil]
        try simp [hiv, fill8, S2K.clear, Protect.clear]
      · simp only [parse_certificate,
          parse_protect,
          protect_iv,
          fill8,
          iobuf_get_noeof_normal_cons,
          List.cons_append,
          List.nil_append,
          read_32_beVal' t0 t1 t2 t3 ht1 ht2 ht3,
          read_16_beVal' d0 d1 hd1,
          mpiStep_enc' p hp,
          mpiStep_enc' g hg,
          mpiStep_enc' y hy,
          mpiStep_enc' x hx,
          read_16_beVal' c0 c1 hc1,
          PKT_SECRET_CERT,
          PKT_SECKEY_SUBCERT,
          PKT_PUBLIC_CERT,
          PKT_PUBKEY_SUBCERT,
          PUBKEY_ALGO_DSA,
          CIPHER_ALGO_BLOWFISH160,
          DIGEST_ALGO_RMD160,
          DIGEST_ALGO_MD5,
          show ((5 : Nat) = 14 ∧ (3 : Nat) = 35) = False from by simp,
          show ((3 : Nat) ≠ 4 ∧ (3 : Nat) ≠ 2 ∧ (3 : Nat) ≠ 3) = False from by simp,
          show ((3 : Nat) = 4) = False from by simp,
          show ((5 : Nat) = 5 ∨ (5 : Nat) = 7) = True from by simp,
          show ((5 : Nat) = 6 ∨ (5 : Nat) = 14) = False from by simp,
          show is_ELGAMAL 16 = true from by decide,
          eq_false (show ¬ (pktlen - 1 < 11) from by omega),
          eq_false (show ¬ (a = 0) from by omega),
          eq_false ha255,
          eq_false (show ¬ (pktlen - 1 - 6 - 1 - p.length - g.length - y.length - 1 < 8) from by omega),
          readCounted_normal 8 (pktlen - 1 - 6 - 1 - p.length - g.length - y.length - 1) (iv ++ (x ++ [c0, c1])) (by omega) (by simp [hiv]),
          List.take_left' hiv,
          List.drop_left' hiv,
          if_true,
          if_false,
          skip_rest_normal,
          List.drop_nil]
        try simp [hiv, fill8, S2K.clear, Protect.clear]
  · intro v t0 t1 t2 t3 c0 c1 pktlen hdrlen vd p g y x hv hvdb ht1 ht2 ht3 hc1 hp hg hy hx hpl
    have hp2 := IsMpiEnc_length p hp
    have hg2 := IsMpiEnc_length g hg
    have hy2 := IsMpiEnc_length y hy
    have hx2 := IsMpiEnc_length x hx
    rcases hv with ⟨rfl, rfl⟩ | ⟨hv23, d0, d1, rfl⟩
    · simp only [List.length_nil] at hpl
      simp only [parse_certificate,
        iobuf_get_noeof_normal_cons,
        List.cons_append,
        List.nil_append,
        read_32_beVal' t0 t1 t2 t3 ht1 ht2 ht3,
        mpiStep_enc' p hp,
        mpiStep_enc' g hg,
        mpiStep_enc' y hy,
        mpiStep_enc' x hx,
        read_16_beVal' c0 c1 hc1,
        PKT_SECRET_CERT,
        PKT_SECKEY_SUBCERT,
        PKT_PUBLIC_CERT,
        PKT_PUBKEY_SUBCERT,
        PUBKEY_ALGO_DSA,
        CIPHER_ALGO_BLOWFISH160,
        DIGEST_ALGO_RMD160,
        DIGEST_ALGO_MD5,
        show ((5 : Nat) = 14 ∧ (4 : Nat) = 35) = False from by simp,
        show ((4 : Nat) ≠ 4 ∧ (4 : Nat) ≠ 2 ∧ (4 : Nat) ≠ 3) = False from by simp,
        show ((4 : Nat) = 4) = True from by simp,
        show ((5 : Nat) = 5 ∨ (5 : Nat) = 7) = True from by simp,
        show ((5 : Nat) = 6 ∨ (5 : Nat) = 14) = False from by simp,
        show is_ELGAMAL 16 = true from by decide,
        eq_false (show ¬ (pktlen - 1 < 11) from by omega),
        show ((0 : Nat) = 0) = True from by simp,
        if_true,
        if_false,
        skip_rest_normal,
        List.drop_nil]
      try simp [S2K.clear, Protect.clear]
    · have hd1 : d1 < 256 := hvdb d1 (by simp)
      simp only [List.length_cons, List.length_nil] at hpl
      rcases hv23 with rfl | rfl
      · simp only [parse_certificate,
          iobuf_get_noeof_normal_cons,
          List.cons_append,
          List.nil_append,
          read_32_beVal' t0 t1 t2 t3 ht1 ht2 ht3,
          read_16_beVal' d0 d1 hd1,
          mpiStep_enc' p hp,
          mpiStep_enc' g hg,
          mpiStep_enc' y hy,
          mpiStep_enc' x hx,
          read_16_beVal' c0 c1 hc1,
          PKT_SECRET_CERT,
          PKT_SECKEY_SUBCERT,
          PKT_PUBLIC_CERT,
          PKT_PUBKEY_SUBCERT,
          PUBKEY_ALGO_DSA,
          CIPHER_ALGO_BLOWFISH160,
          DIGEST_ALGO_RMD160,
          DIGEST_ALGO_MD5,
          show ((5 : Nat) = 14 ∧ (2 : Nat) = 35) = False from by simp,
          show ((2 : Nat) ≠ 4 ∧ (2 : Nat) ≠ 2 ∧ (2 : Nat) ≠ 3) = False from by simp,
          show ((2 : Nat) = 4) = False from by simp,
          show ((5 : Nat) = 5 ∨ (5 : Nat) = 7) = True from by simp,
          show ((5 : Nat) = 6 ∨ (5 : Nat) = 14) = False from by simp,
          show is_ELGAMAL 16 = true from by decide,
          eq_false (show ¬ (pktlen - 1 < 11) from by omega),
          show ((0 : Nat) = 0) = True from by simp,
          if_true,
          if_false,
          skip_rest_normal,
          List.drop_nil]
        try simp [S2K.clear, Protect.clear]
      · simp only [parse_certificate,
          iobuf_get_noeof_normal_cons,
          List.cons_append,
          List.nil_append,
          read_32_beVal' t0 t1 t2 t3 ht1 ht2 ht3,
          read_16_beVal' d0 d1 hd1,
          mpiStep_enc' p hp,
          mpiStep_enc' g hg,
          mpiStep_enc' y hy,
          mpiStep_enc' x hx,
          read_16_beVal' c0 c1 hc1,
          PKT_SECRET_CERT,
          PKT_SECKEY_SUBCERT,
          PKT_PUBLIC_CERT,
          PKT_PUBKEY_SUBCERT,
          PUBKEY_ALGO_DSA,
          CIPHER_ALGO_BLOWFISH160,
          DIGEST_ALGO_RMD160,
          DIGEST_ALGO_MD5,
          show ((5 : Nat) = 14 ∧ (3 : Nat) = 35) = False from by simp,
          show ((3 : Nat) ≠ 4 ∧ (3 : Nat) ≠ 2 ∧ (3 : Nat) ≠ 3) = False from by simp,
          show ((3 : Nat) = 4) = False from by simp,
          show ((5 : Nat) = 5 ∨ (5 : Nat) = 7) = True from by simp,
          show ((5 : Nat) = 6 ∨ (5 : Nat) = 14) = False from by simp,
          show is_ELGAMAL 16 = true from by decide,
          eq_false (show ¬ (pktlen - 1 < 11) from by omega),
          show ((0 : Nat) = 0) = True from by simp,
          if_true,
          if_false,
          skip_rest_normal,
          List.drop_nil]
        try simp [S2K.clear, Protect.clear]
  · intro v t0 t1 t2 t3 a2 h2 c0 c1 pktlen hdrlen vd p g y iv x hv hvdb ht1 ht2 ht3 hc1 hp hg hy hx hiv hpl
    have hp2 := IsMpiEnc_length p hp
    have hg2 := IsMpiEnc_length g hg
    have hy2 := IsMpiEnc_length y hy
    have hx2 := IsMpiEnc_length x hx
    rcases hv with ⟨rfl, rfl⟩ | ⟨hv23, d0, d1, rfl⟩
    · simp only [List.length_nil] at hpl
      simp only [parse_certificate,
        parse_protect,
        protect_iv,
        fill8,
        iobuf_get_noeof_normal_cons,
        List.cons_append,
        List.nil_append,
        read_32_beVal' t0 t1 t2 t3 ht1 ht2 ht3,
        mpiStep_enc' p hp,
        mpiStep_enc' g hg,
        mpiStep_enc' y hy,
        mpiStep_enc' x hx,
        read_16_beVal' c0 c1 hc1,
        PKT_SECRET_CERT,
        PKT_SECKEY_SUBCERT,
        PKT_PUBLIC_CERT,
        PKT_PUBKEY_SUBCERT,
        PUBKEY_ALGO_DSA,
        CIPHER_ALGO_BLOWFISH160,
        DIGEST_ALGO_RMD160,
        DIGEST_ALGO_MD5,
        show ((5 : Nat) = 14 ∧ (4 : Nat) = 35) = False from by simp,
        show ((4 : Nat) ≠ 4 ∧ (4 : Nat) ≠ 2 ∧ (4 : Nat) ≠ 3) = False from by simp,
        show ((4 : Nat) = 4) = True from by simp,
        show ((5 : Nat) = 5 ∨ (5 : Nat) = 7) = True from by simp,
        show ((5 : Nat) = 6 ∨ (5 : Nat) = 14) = False from by simp,
        show is_ELGAMAL 16 = true from by decide,
        eq_false (show ¬ (pktlen - 1 < 11) from by omega),
        show ((255 : Nat) = 0) = False from by simp,
        show ((255 : Nat) = 255) = True from by simp,
        eq_false (show ¬ (pktlen - 1 - 4 - 1 - p.length - g.length - y.length - 1 < 3) from by omega),
        show ((0 : Nat) = 1) = False from by simp,
        show ((0 : Nat) = 4) = False from by simp,
        or_false,
        show ((0 : Nat) ≠ 0 ∧ (0 : Nat) ≠ 1 ∧ (0 : Nat) ≠ 4) = False from by simp,
        false_and,
        eq_false (show ¬ (pktlen - 1 - 4 - 1 - p.length - g.length - y.length - 1 - 3 < 8) from by omega),
        readCounted_normal 8 (pktlen - 1 - 4 - 1 - p.length - g.length - y.length - 1 - 3) (iv ++ (x ++ [c0, c1])) (by omega) (by simp [hiv]),
        List.take_left' hiv,
        List.drop_left' hiv,
        if_true,
        if_false,
        skip_rest_normal,
        List.drop_nil]
      try simp [hiv, fill8, S2K.clear, Protect.clear]
    · have hd1 : d1 < 256 := hvdb d1 (by simp)
      simp only [List.length_cons, List.length_nil] at hpl
      rcases hv23 with rfl | rfl
      · simp only [parse_certificate,
          parse_protect,
          protect_iv,
          fill8,
          iobuf_get_noeof_normal_cons,
          List.cons_append,
          List.nil_append,
          read_32_beVal' t0 t1 t2 t3 ht1 ht2 ht3,
          read_16_beVal' d0 d1 hd1,
          mpiStep_enc' p hp,
          mpiStep_enc' g hg,
          mpiStep_enc' y hy,
          mpiStep_enc' x hx,
          read_16_beVal' c0 c1 hc1,
          PKT_SECRET_CERT,
          PKT_SECKEY_SUBCERT,
          PKT_PUBLIC_CERT,
          PKT_PUBKEY_SUBCERT,
          PUBKEY_ALGO_DSA,
          CIPHER_ALGO_BLOWFISH160,
          DIGEST_ALGO_RMD160,
          DIGEST_ALGO_MD5,
          show ((5 : Nat) = 14 ∧ (2 : Nat) = 35) = False from by simp,
          show ((2 : Nat) ≠ 4 ∧ (2 : Nat) ≠ 2 ∧ (2 : Nat) ≠ 3) = False from by simp,
          show ((2 : Nat) = 4) = False from by simp,
          show ((5 : Nat) = 5 ∨ (5 : Nat) = 7) = True from by simp,
          show ((5 : Nat) = 6 ∨ (5 : Nat) = 14) = False from by simp,
          show is_ELGAMAL 16 = true from by decide,
          eq_false (show ¬ (pktlen - 1 < 11) from by omega),
          show ((255 : Nat) = 0) = False from by simp,
          show ((255 : Nat) = 255) = True from by simp,
          eq_false (show ¬ (pktlen - 1 - 6 - 1 - p.length - g.length - y.length - 1 < 3) from by omega),
          show ((0 : Nat) = 1) = False from by simp,
          show ((0 : Nat) = 4) = False from by simp,
          or_false,
          show ((0 : Nat) ≠ 0 ∧ (0 : Nat) ≠ 1 ∧ (0 : Nat) ≠ 4) = False from by simp,
          false_and,
          eq_false (show ¬ (pktlen - 1 - 6 - 1 - p.length - g.length - y.length - 1 - 3 < 8) from by omega),
          readCounted_normal 8 (pktlen - 1 - 6 - 1 - p.length - g.length - y.length - 1 - 3) (iv ++ (x ++ [c0, c1])) (by omega) (by simp [hiv]),
          List.take_left' hiv,
          List.drop_left' hiv,
          if_true,
          if_false,
          skip_rest_normal,
          List.drop_nil]
        try simp [hiv, fill8, S2K.clear, Protect.clear]
      · simp only [parse_certificate,
          parse_protect,
          protect_iv,
          fill8,
          iobuf_get_noeof_normal_cons,
          List.cons_append,
          List.nil_append,
          read_32_beVal' t0 t1 t2 t3 ht1 ht2 ht3,
          read_16_beVal' d0 d1 hd1,
          mpiStep_enc' p hp,
          mpiStep_enc' g hg,
          mpiStep_enc' y hy,
          mpiStep_enc' x hx,
          read_16_beVal' c0 c1 hc1,
          PKT_SECRET_CERT,
          PKT_SECKEY_SUBCERT,
          PKT_PUBLIC_CERT,
          PKT_PUBKEY_SUBCERT,
          PUBKEY_ALGO_DSA,
          CIPHER_ALGO_BLOWFISH160,
          DIGEST_ALGO_RMD160,
          DIGEST_ALGO_MD5,
          show ((5 : Nat) = 14 ∧ (3 : Nat) = 35) = False from by simp,
          show ((3 : Nat) ≠ 4 ∧ (3 : Nat) ≠ 2 ∧ (3 : Nat) ≠ 3) = False from by simp,
          show ((3 : Nat) = 4) = False from by simp,
          show ((5 : Nat) = 5 ∨ (5 : Nat) = 7) = True from by simp,
          show ((5 : Nat) = 6 ∨ (5 : Nat) = 14) = False from by simp,
          show is_ELGAMAL 16 = true from by decide,
          eq_false (show ¬ (pktlen - 1 < 11) from by omega),
          show ((255 : Nat) = 0) = False from by simp,
          show ((255 : Nat) = 255) = True from by simp,
          eq_false (show ¬ (pktlen - 1 - 6 - 1 - p.length - g.length - y.length - 1 < 3) from by omega),
          show ((0 : Nat) = 1) = False from by simp,
          show ((0 : Nat) = 4) = False from by simp,
          or_false,
          show ((0 : Nat) ≠ 0 ∧ (0 : Nat) ≠ 1 ∧ (0 : Nat) ≠ 4) = False from by simp,
          false_and,
          eq_false (show ¬ (pktlen - 1 - 6 - 1 - p.length - g.length - y.length - 1 - 3 < 8) from by omega),
          readCounted_normal 8 (pktlen - 1 - 6 - 1 - p.length - g.length - y.length - 1 - 3) (iv ++ (x ++ [c0, c1])) (by omega) (by simp [hiv]),
          List.take_left' hiv,
          List.drop_left' hiv,
          if_true,
          if_false,
          skip_rest_normal,
          List.drop_nil]
        try simp [hiv, fill8, S2K.clear, Protect.clear]
  · intro v t0 t1 t2 t3 a c0 c1 pktlen hdrlen vd p q g y iv x hv hvdb ht1 ht2 ht3 hc1 hp hq hg hy hx hiv ha0 ha255 hpl
    have hp2 := IsMpiEnc_length p hp
    have hq2 := IsMpiEnc_length q hq
    have hg2 := IsMpiEnc_length g hg
    have hy2 := IsMpiEnc_length y hy
    have hx2 := IsMpiEnc_length x hx
    rcases hv with ⟨rfl, rfl⟩ | ⟨hv23, d0, d1, rfl⟩
    · simp only [List.length_nil] at hpl
      simp only [parse_certificate,
        parse_protect,
        protect_iv,
        fill8,
        iobuf_get_noeof_normal_cons,
        List.cons_append,
        List.nil_append,
        read_32_beVal' t0 t1 t2 t3 ht1 ht2 ht3,
        mpiStep_enc' p hp,
        mpiStep_enc' q hq,
        mpiStep_enc' g hg,
        mpiStep_enc' y hy,
        mpiStep_enc' x hx,
        read_16_beVal' c0 c1 hc1,
        PKT_SECRET_CERT,
        PKT_SECKEY_SUBCERT,
        PKT_PUBLIC_CERT,
        PKT_PUBKEY_SUBCERT,
        PUBKEY_ALGO_DSA,
        CIPHER_ALGO_BLOWFISH160,
        DIGEST_ALGO_RMD160,
        DIGEST_ALGO_MD5,
        show ((5 : Nat) = 14 ∧ (4 : Nat) = 35) = False from by simp,
        show ((4 : Nat) ≠ 4 ∧ (4 : Nat) ≠ 2 ∧ (4 : Nat) ≠ 3) = False from by simp,
        show ((4 : Nat) = 4) = True from by simp,
        show ((5 : Nat) = 5 ∨ (5 : Nat) = 7) = True from by simp,
        show ((5 : Nat) = 6 ∨ (5 : Nat) = 14) = False from by simp,
        show (is_ELGAMAL 17 = true) = False from by decide,
        show ((17 : Nat) = 17) = True from by simp,
        eq_false (show ¬ (pktlen - 1 < 11) from by omega),
        eq_false (show ¬ (a = 0) from by omega),
        eq_false ha255,
        eq_false (show ¬ (pktlen - 1 - 4 - 1 - p.length - q.length - g.length - y.length - 1 < 8) from by omega),
        readCounted_normal 8 (pktlen - 1 - 4 - 1 - p.length - q.length - g.length - y.length - 1) (iv ++ (x ++ [c0, c1])) (by omega) (by simp [hiv]),
        List.take_left' hiv,
        List.drop_left' hiv,
        if_true,
        if_false,
        skip_rest_normal,
        List.drop_nil]
      try simp [hiv, fill8, S2K.clear, Protect.clear]
    · have hd1 : d1 < 256 := hvdb d1 (by simp)
      simp only [List.length_cons, List.length_nil] at hpl
      rcases hv23 with rfl | rfl
      · simp only [parse_certificate,
          parse_protect,
          protect_iv,
          fill8,
          iobuf_get_noeof_normal_cons,
          List.cons_append,
          List.nil_append,
          read_32_beVal' t0 t1 t2 t3 ht1 ht2 ht3,
          read_16_beVal' d0 d1 hd1,
          mpiStep_enc' p hp,
          mpiStep_enc' q hq,
          mpiStep_enc' g hg,
          mpiStep_enc' y hy,
          mpiStep_enc' x hx,
          read_16_beVal' c0 c1 hc1,
          PKT_SECRET_CERT,
          PKT_SECKEY_SUBCERT,
          PKT_PUBLIC_CERT,
          PKT_PUBKEY_SUBCERT,
          PUBKEY_ALGO_DSA,
          CIPHER_ALGO_BLOWFISH160,
          DIGEST_ALGO_RMD160,
          DIGEST_ALGO_MD5,
          show ((5 : Nat) = 14 ∧ (2 : Nat) = 35) = False from by simp,
          show ((2 : Nat) ≠ 4 ∧ (2 : Nat) ≠ 2 ∧ (2 : Nat) ≠ 3) = False from by simp,
          show ((2 : Nat) = 4) = False from by simp,
          show ((5 : Nat) = 5 ∨ (5 : Nat) = 7) = True from by simp,
          show ((5 : Nat) = 6 ∨ (5 : Nat) = 14) = False from by simp,
          show (is_ELGAMAL 17 = true) = False from by decide,
          show ((17 : Nat) = 17) = True from by simp,
          eq_false (show ¬ (pktlen - 1 < 11) from by omega),
          eq_false (show ¬ (a = 0) from by omega),
          eq_false ha255,
          eq_false (show ¬ (pktlen - 1 - 6 - 1 - p.length - q.length - g.length - y.length - 1 < 8) from by omega),
          readCounted_normal 8 (pktlen - 1 - 6 - 1 - p.length - q.length - g.length - y.length - 1) (iv ++ (x ++ [c0, c1])) (by omega) (by simp [hiv]),
          List.take_left' hiv,
          List.drop_left' hiv,
          if_true,
          if_false,
          skip_rest_normal,
          List.drop_nil]
        try simp [hiv, fill8, S2K.clear, Protect.clear]
      · simp only [parse_certificate,
          parse_protect,
          protect_iv,
          fill8,
          iobuf_get_noeof_normal_cons,
          List.cons_append,
          List.nil_append,
          read_32_beVal' t0 t1 t2 t3 ht1 ht2 ht3,
          read_16_beVal' d0 d1 hd1,
          mpiStep_enc' p hp,
          mpiStep_enc' q hq,
          mpiStep_enc' g hg,
          mpiStep_enc' y hy,
          mpiStep_enc' x hx,
          read_16_beVal' c0 c1 hc1,
          PKT_SECRET_CERT,
          PKT_SECKEY_SUBCERT,
          PKT_PUBLIC_CERT,
          PKT_PUBKEY_SUBCERT,
          PUBKEY_ALGO_DSA,
          CIPHER_ALGO_BLOWFISH160,
          DIGEST_ALGO_RMD160,
          DIGEST_ALGO_MD5,
          show ((5 : Nat) = 14 ∧ (3 : Nat) = 35) = False from by simp,
          show ((3 : Nat) ≠ 4 ∧ (3 : Nat) ≠ 2 ∧ (3 : Nat) ≠ 3) = False from by simp,
          show ((3 : Nat) = 4) = False from by simp,
          show ((5 : Nat) = 5 ∨ (5 : Nat) = 7) = True from by simp,
          show ((5 : Nat) = 6 ∨ (5 : Nat) = 14) = False from by simp,
          show (is_ELGAMAL 17 = true) = False from by decide,
          show ((17 : Nat) = 17) = True from by simp,
          eq_false (show ¬ (pktlen - 1 < 11) from by omega),
          eq_false (show ¬ (a = 0) from by omega),
          eq_false ha255,
          eq_false (show ¬ (pktlen - 1 - 6 - 1 - p.length - q.length - g.length - y.length - 1 < 8) from by omega),
          readCounted_normal 8 (pktlen - 1 - 6 - 1 - p.length - q.length - g.length - y.length - 1) (iv ++ (x ++ [c0, c1])) (by omega) (by simp [hiv]),
          List.take_left' hiv,
          List.drop_left' hiv,
          if_true,
          if_false,
          skip_rest_normal,
          List.drop_nil]
        try simp [hiv, fill8, S2K.clear, Protect.clear]
  · intro v t0 t1 t2 t3 c0 c1 pktlen hdrlen vd p q g y x hv hvdb ht1 ht2 ht3 hc1 hp hq hg hy hx hpl
    have hp2 := IsMpiEnc_length p hp
    have hq2 := IsMpiEnc_length q hq
    have hg2 := IsMpiEnc_length g hg
    have hy2 := IsMpiEnc_length y hy
    have hx2 := IsMpiEnc_length x hx
    rcases hv with ⟨rfl, rfl⟩ | ⟨hv23, d0, d1, rfl⟩
    · simp only [List.length_nil] at hpl
      simp only [parse_certificate,
        iobuf_get_noeof_normal_cons,
        List.cons_append,
        List.nil_append,
        read_32_beVal' t0 t1 t2 t3 ht1 ht2 ht3,
        mpiStep_enc' p hp,
        mpiStep_enc' q hq,
        mpiStep_enc' g hg,
        mpiStep_enc' y hy,
        mpiStep_enc' x hx,
        read_16_beVal' c0 c1 hc1,
        PKT_SECRET_CERT,
        PKT_SECKEY_SUBCERT,
        PKT_PUBLIC_CERT,
        PKT_PUBKEY_SUBCERT,
        PUBKEY_ALGO_DSA,
        CIPHER_ALGO_BLOWFISH160,
        DIGEST_ALGO_RMD160,
        DIGEST_ALGO_MD5,
        show ((5 : Nat) = 14 ∧ (4 : Nat) = 35) = False from by simp,
        show ((4 : Nat) ≠ 4 ∧ (4 : Nat) ≠ 2 ∧ (4 : Nat) ≠ 3) = False from by simp,
        show ((4 : Nat) = 4) = True from by simp,
        show ((5 : Nat) = 5 ∨ (5 : Nat) = 7) = True from by simp,
        show ((5 : Nat) = 6 ∨ (5 : Nat) = 14) = False from by simp,
        show (is_ELGAMAL 17 = true) = False from by decide,
        show ((17 : Nat) = 17) = True from by simp,
        eq_false (show ¬ (pktlen - 1 < 11) from by omega),
        show ((0 : Nat) = 0) = True from by simp,
        if_true,
        if_false,
        skip_rest_normal,
        List.drop_nil]
      try simp [S2K.clear, Protect.clear]
    · have hd1 : d1 < 256 := hvdb d1 (by simp)
      simp only [List.length_cons, List.length_nil] at hpl
      rcases hv23 with rfl | rfl
      · simp only [parse_certificate,
          iobuf_get_noeof_normal_cons,
          List.cons_append,
          List.nil_append,
          read_32_beVal' t0 t1 t2 t3 ht1 ht2 ht3,
          read_16_beVal' d0 d1 hd1,
          mpiStep_enc' p hp,
          mpiStep_enc' q hq,
          mpiStep_enc' g hg,
          mpiStep_enc' y hy,
          mpiStep_enc' x hx,
          read_16_beVal' c0 c1 hc1,
          PKT_SECRET_CERT,
          PKT_SECKEY_SUBCERT,
          PKT_PUBLIC_CERT,
          PKT_PUBKEY_SUBCERT,
          PUBKEY_ALGO_DSA,
          CIPHER_ALGO_BLOWFISH160,
          DIGEST_ALGO_RMD160,
          DIGEST_ALGO_MD5,
          show ((5 : Nat) = 14 ∧ (2 : Nat) = 35) = False from by simp,
          show ((2 : Nat) ≠ 4 ∧ (2 : Nat) ≠ 2 ∧ (2 : Nat) ≠ 3) = False from by simp,
          show ((2 : Nat) = 4) = False from by simp,
          show ((5 : Nat) = 5 ∨ (5 : Nat) = 7) = True from by simp,
          show ((5 : Nat) = 6 ∨ (5 : Nat) = 14) = False from by simp,
          show (is_ELGAMAL 17 = true) = False from by decide,
          show ((17 : Nat) = 17) = True from by simp,
          eq_false (show ¬ (pktlen - 1 < 11) from by omega),
          show ((0 : Nat) = 0) = True from by simp,
          if_true,
          if_false,
          skip_rest_normal,
          List.drop_nil]
        try simp [S2K.clear, Protect.clear]
      · simp only [parse_certificate,
          iobuf_get_noeof_normal_cons,
          List.cons_append,
          List.nil_append,
          read_32_beVal' t0 t1 t2 t3 ht1 ht2 ht3,
          read_16_beVal' d0 d1 hd1,
          mpiStep_enc' p hp,
          mpiStep_enc' q hq,
          mpiStep_enc' g hg,
          mpiStep_enc' y hy,
          mpiStep_enc' x hx,
          read_16_beVal' c0 c1 hc1,
          PKT_SECRET_CERT,
          PKT_SECKEY_SUBCERT,
          PKT_PUBLIC_CERT,
          PKT_PUBKEY_SUBCERT,
          PUBKEY_ALGO_DSA,
          CIPHER_ALGO_BLOWFISH160,
          DIGEST_ALGO_RMD160,
          DIGEST_ALGO_MD5,
          show ((5 : Nat) = 14 ∧ (3 : Nat) = 35) = False from by simp,
          show ((3 : Nat) ≠ 4 ∧ (3 : Nat) ≠ 2 ∧ (3 : Nat) ≠ 3) = False from by simp,
          show ((3 : Nat) = 4) = False from by simp,
          show ((5 : Nat) = 5 ∨ (5 : Nat) = 7) = True from by simp,
          show ((5 : Nat) = 6 ∨ (5 : Nat) = 14) = False from by simp,
          show (is_ELGAMAL 17 = true) = False from by decide,
          show ((17 : Nat) = 17) = True from by simp,
          eq_false (show ¬ (pktlen - 1 < 11) from by omega),
          show ((0 : Nat) = 0) = True from by simp,
          if_true,
          if_false,
          skip_rest_normal,
          List.drop_nil]
        try simp [S2K.clear, Protect.clear]
  · intro v t0 t1 t2 t3 a2 h2 c0 c1 pktlen hdrlen vd p q g y iv x hv hvdb ht1 ht2 ht3 hc1 hp hq hg hy hx hiv hpl
    have hp2 := IsMpiEnc_length p hp
    have hq2 := IsMpiEnc_length q hq
    have hg2 := IsMpiEnc_length g hg
    have hy2 := IsMpiEnc_length y hy
    have hx2 := IsMpiEnc_length x hx
    rcases hv with ⟨rfl, rfl⟩ | ⟨hv23, d0, d1, rfl⟩
    · simp only [List.length_nil] at hpl
      simp only [parse_certificate,
        parse_protect,
        protect_iv,
        fill8,
        iobuf_get_noeof_normal_cons,
        List.cons_append,
        List.nil_append,
        read_32_beVal' t0 t1 t2 t3 ht1 ht2 ht3,
        mpiStep_enc' p hp,
        mpiStep_enc' q hq,
        mpiStep_enc' g hg,
        mpiStep_enc' y hy,
        mpiStep_enc' x hx,
        read_16_beVal' c0 c1 hc1,
        PKT_SECRET_CERT,
        PKT_SECKEY_SUBCERT,
        PKT_PUBLIC_CERT,
        PKT_PUBKEY_SUBCERT,
        PUBKEY_ALGO_DSA,
        CIPHER_ALGO_BLOWFISH160,
        DIGEST_ALGO_RMD160,
        DIGEST_ALGO_MD5,
        show ((5 : Nat) = 14 ∧ (4 : Nat) = 35) = False from by simp,
        show ((4 : Nat) ≠ 4 ∧ (4 : Nat) ≠ 2 ∧ (4 : Nat) ≠ 3) = False from by simp,
        show ((4 : Nat) = 4) = True from by simp,
        show ((5 : Nat) = 5 ∨ (5 : Nat) = 7) = True from by simp,
        show ((5 : Nat) = 6 ∨ (5 : Nat) = 14) = False from by simp,
        show (is_ELGAMAL 17 = true) = False from by decide,
        show ((17 : Nat) = 17) = True from by simp,
        eq_false (show ¬ (pktlen - 1 < 11) from by omega),
        show ((255 : Nat) = 0) = False from by simp,
        show ((255 : Nat) = 255) = True from by simp,
        eq_false (show ¬ (pktlen - 1 - 4 - 1 - p.length - q.length - g.length - y.length - 1 < 3) from by omega),
        show ((0 : Nat) = 1) = False from by simp,
        show ((0 : Nat) = 4) = False from by simp,
        or_false,
        show ((0 : Nat) ≠ 0 ∧ (0 : Nat) ≠ 1 ∧ (0 : Nat) ≠ 4) = False from by simp,
        false_and,
        eq_false (show ¬ (pktlen - 1 - 4 - 1 - p.length - q.length - g.length - y.length - 1 - 3 < 8) from by omega),
        readCounted_normal 8 (pktlen - 1 - 4 - 1 - p.length - q.length - g.length - y.length - 1 - 3) (iv ++ (x ++ [c0, c1])) (by omega) (by simp [hiv]),
        List.take_left' hiv,
        List.drop_left' hiv,
        if_true,
        if_false,
        skip_rest_normal,
        List.drop_nil]
      try simp [hiv, fill8, S2K.clear, Protect.clear]
    · have hd1 : d1 < 256 := hvdb d1 (by simp)
      simp only [List.length_cons, List.length_nil] at hpl
      rcases hv23 with rfl | rfl
      · simp only [parse_certificate,
          parse_protect,
          protect_iv,
          fill8,
          iobuf_get_noeof_normal_cons,
          List.cons_append,
          List.nil_append,
          read_32_beVal' t0 t1 t2 t3 ht1 ht2 ht3,
          read_16_beVal' d0 d1 hd1,
          mpiStep_enc' p hp,
          mpiStep_enc' q hq,
          mpiStep_enc' g hg,
          mpiStep_enc' y hy,
          mpiStep_enc' x hx,
          read_16_beVal' c0 c1 hc1,
          PKT_SECRET_CERT,
          PKT_SECKEY_SUBCERT,
          PKT_PUBLIC_CERT,
          PKT_PUBKEY_SUBCERT,
          PUBKEY_ALGO_DSA,
          CIPHER_ALGO_BLOWFISH160,
          DIGEST_ALGO_RMD160,
          DIGEST_ALGO_MD5,
          show ((5 : Nat) = 14 ∧ (2 : Nat) = 35) = False from by simp,
          show ((2 : Nat) ≠ 4 ∧ (2 : Nat) ≠ 2 ∧ (2 : Nat) ≠ 3) = False from by simp,
          show ((2 : Nat) = 4) = False from by simp,
          show ((5 : Nat) = 5 ∨ (5 : Nat) = 7) = True from by simp,
          show ((5 : Nat) = 6 ∨ (5 : Nat) = 14) = False from by simp,
          show (is_ELGAMAL 17 = true) = False from by decide,
          show ((17 : Nat) = 17) = True from by simp,
          eq_false (show ¬ (pktlen - 1 < 11) from by omega),
          show ((255 : Nat) = 0) = False from by simp,
          show ((255 : Nat) = 255) = True from by simp,
          eq_false (show ¬ (pktlen - 1 - 6 - 1 - p.length - q.length - g.length - y.length - 1 < 3) from by omega),
          show ((0 : Nat) = 1) = False from by simp,
          show ((0 : Nat) = 4) = False from by simp,
          or_false,
          show ((0 : Nat) ≠ 0 ∧ (0 : Nat) ≠ 1 ∧ (0 : Nat) ≠ 4) = False from by simp,
          false_and,
          eq_false (show ¬ (pktlen - 1 - 6 - 1 - p.length - q.length - g.length - y.length - 1 - 3 < 8) from by omega),
          readCounted_normal 8 (pktlen - 1 - 6 - 1 - p.length - q.length - g.length - y.length - 1 - 3) (iv ++ (x ++ [c0, c1])) (by omega) (by simp [hiv]),
          List.take_left' hiv,
          List.drop_left' hiv,
          if_true,
          if_false,
          skip_rest_normal,
          List.drop_nil]
        try simp [hiv, fill8, S2K.clear, Protect.clear]
      · simp only [parse_certificate,
          parse_protect,
          protect_iv,
          fill8,
          iobuf_get_noeof_normal_cons,
          List.cons_append,
          List.nil_append,
          read_32_beVal' t0 t1 t2 t3 ht1 ht2 ht3,
          read_16_beVal' d0 d1 hd1,
          mpiStep_enc' p hp,
          mpiStep_enc' q hq,
          mpiStep_enc' g hg,
          mpiStep_enc' y hy,
          mpiStep_enc' x hx,
          read_16_beVal' c0 c1 hc1,
          PKT_SECRET_CERT,
          PKT_SECKEY_SUBCERT,
          PKT_PUBLIC_CERT,
          PKT_PUBKEY_SUBCERT,
          PUBKEY_ALGO_DSA,
          CIPHER_ALGO_BLOWFISH160,
          DIGEST_ALGO_RMD160,
          DIGEST_ALGO_MD5,
          show ((5 : Nat) = 14 ∧ (3 : Nat) = 35) = False from by simp,
          show ((3 : Nat) ≠ 4 ∧ (3 : Nat) ≠ 2 ∧ (3 : Nat) ≠ 3) = False from by simp,
          show ((3 : Nat) = 4) = False from by simp,
          show ((5 : Nat) = 5 ∨ (5 : Nat) = 7) = True from by simp,
          show ((5 : Nat) = 6 ∨ (5 : Nat) = 14) = False from by simp,
          show (is_ELGAMAL 17 = true) = False from by decide,
          show ((17 : Nat) = 17) = True from by simp,
          eq_false (show ¬ (pktlen - 1 < 11) from by omega),
          show ((255 : Nat) = 0) = False from by simp,
          show ((255 : Nat) = 255) = True from by simp,
          eq_false (show ¬ (pktlen - 1 - 6 - 1 - p.length - q.length - g.length - y.length - 1 < 3) from by omega),
          show ((0 : Nat) = 1) = False from by simp,
          show ((0 : Nat) = 4) = False from by simp,
          or_false,
          show ((0 : Nat) ≠ 0 ∧ (0 : Nat) ≠ 1 ∧ (0 : Nat) ≠ 4) = False from by simp,
          false_and,
          eq_false (show ¬ (pktlen - 1 - 6 - 1 - p.length - q.length - g.length - y.length - 1 - 3 < 8) from by omega),
          readCounted_normal 8 (pktlen - 1 - 6 - 1 - p.length - q.length - g.length - y.length - 1 - 3) (iv ++ (x ++ [c0, c1])) (by omega) (by simp [hiv]),
          List.take_left' hiv,
          List.drop_left' hiv,
          if_true,
          if_false,
          skip_rest_normal,
          List.drop_nil]
        try simp [hiv, fill8, S2K.clear, Protect.clear]
  · intro v t0 t1 t2 t3 a c0 c1 pktlen hdrlen vd n e iv xd xp xq xu hv hvdb ht1 ht2 ht3 hc1 hn he hxd hxp hxq hxu hiv ha0 hpl
    have hn2 := IsMpiEnc_length n hn
    have he2 := IsMpiEnc_length e he
    have hxd2 := IsMpiEnc_length xd hxd
    have hxp2 := IsMpiEnc_length xp hxp
    have hxq2 := IsMpiEnc_length xq hxq
    have hxu2 := IsMpiEnc_length xu hxu
    rcases hv with ⟨rfl, rfl⟩ | ⟨hv23, d0, d1, rfl⟩
    · simp only [List.length_nil] at hpl
      simp only [parse_certificate,
        iobuf_get_noeof_normal_cons,
        List.cons_append,
        List.nil_append,
        read_32_beVal' t0 t1 t2 t3 ht1 ht2 ht3,
        mpiStep_enc' n hn,
        mpiStep_enc' e he,
        mpiStep_enc' xd hxd,
        mpiStep_enc' xp hxp,
        mpiStep_enc' xq hxq,
        mpiStep_enc' xu hxu,
        read_16_beVal' c0 c1 hc1,
        PKT_SECRET_CERT,
        PKT_SECKEY_SUBCERT,
        PKT_PUBLIC_CERT,
        PKT_PUBKEY_SUBCERT,
        PUBKEY_ALGO_DSA,
        CIPHER_ALGO_BLOWFISH160,
        DIGEST_ALGO_RMD160,
        DIGEST_ALGO_MD5,
        show ((5 : Nat) = 14 ∧ (4 : Nat) = 35) = False from by simp,
        show ((4 : Nat) ≠ 4 ∧ (4 : Nat) ≠ 2 ∧ (4 : Nat) ≠ 3) = False from by simp,
        show ((4 : Nat) = 4) = True from by simp,
        show ((5 : Nat) = 5 ∨ (5 : Nat) = 7) = True from by simp,
        show ((5 : Nat) = 6 ∨ (5 : Nat) = 14) = False from by simp,
        show (is_ELGAMAL 1 = true) = False from by decide,
        show ((1 : Nat) = 17) = False from by simp,
        show (is_RSA 1 = true) = True from by decide,
        eq_false (show ¬ (pktlen - 1 < 11) from by omega),
        eq_true (show a ≠ 0 from by omega),
        show (a != 0) = true from by simpa using (show a ≠ 0 from by omega),
        readCounted_normal 8 (pktlen - 1 - 4 - 1 - n.length - e.length - 1) (iv ++ (xd ++ (xp ++ (xq ++ (xu ++ [c0, c1]))))) (by omega) (by simp [hiv]),
        List.take_left' hiv,
        List.drop_left' hiv,
        if_true,
        if_false,
        skip_rest_normal,
        List.drop_nil]
      try simp [hiv, fill8, S2K.clear, Protect.clear]
    · have hd1 : d1 < 256 := hvdb d1 (by simp)
      simp only [List.length_cons, List.length_nil] at hpl
      rcases hv23 with rfl | rfl
      · simp only [parse_certificate,
          iobuf_get_noeof_normal_cons,
          List.cons_append,
          List.nil_append,
          read_32_beVal' t0 t1 t2 t3 ht1 ht2 ht3,
          read_16_beVal' d0 d1 hd1,
          mpiStep_enc' n hn,
          mpiStep_enc' e he,
          mpiStep_enc' xd hxd,
          mpiStep_enc' xp hxp,
          mpiStep_enc' xq hxq,
          mpiStep_enc' xu hxu,
          read_16_beVal' c0 c1 hc1,
          PKT_SECRET_CERT,
          PKT_SECKEY_SUBCERT,
          PKT_PUBLIC_CERT,
          PKT_PUBKEY_SUBCERT,
          PUBKEY_ALGO_DSA,
          CIPHER_ALGO_BLOWFISH160,
          DIGEST_ALGO_RMD160,
          DIGEST_ALGO_MD5,
          show ((5 : Nat) = 14 ∧ (2 : Nat) = 35) = False from by simp,
          show ((2 : Nat) ≠ 4 ∧ (2 : Nat) ≠ 2 ∧ (2 : Nat) ≠ 3) = False from by simp,
          show ((2 : Nat) = 4) = False from by simp,
          show ((5 : Nat) = 5 ∨ (5 : Nat) = 7) = True from by simp,
          show ((5 : Nat) = 6 ∨ (5 : Nat) = 14) = False from by simp,
          show (is_ELGAMAL 1 = true) = False from by decide,
          show ((1 : Nat) = 17) = False from by simp,
          show (is_RSA 1 = true) = True from by decide,
          eq_false (show ¬ (pktlen - 1 < 11) from by omega),
          eq_true (show a ≠ 0 from by omega),
          show (a != 0) = true from by simpa using (show a ≠ 0 from by omega),
          readCounted_normal 8 (pktlen - 1 - 6 - 1 - n.length - e.length - 1) (iv ++ (xd ++ (xp ++ (xq ++ (xu ++ [c0, c1]))))) (by omega) (by simp [hiv]),
          List.take_left' hiv,
          List.drop_left' hiv,
          if_true,
          if_false,
          skip_rest_normal,
          List.drop_nil]
        try simp [hiv, fill8, S2K.clear, Protect.clear]
      · simp only [parse_certificate,
          iobuf_get_noeof_normal_cons,
          List.cons_append,
          List.nil_append,
          read_32_beVal' t0 t1 t2 t3 ht1 ht2 ht3,
          read_16_beVal' d0 d1 hd1,
          mpiStep_enc' n hn,
          mpiStep_enc' e he,
          mpiStep_enc' xd hxd,
          mpiStep_enc' xp hxp,
          mpiStep_enc' xq hxq,
          mpiStep_enc' xu hxu,
          read_16_beVal' c0 c1 hc1,
          PKT_SECRET_CERT,
          PKT_SECKEY_SUBCERT,
          PKT_PUBLIC_CERT,
          PKT_PUBKEY_SUBCERT,
          PUBKEY_ALGO_DSA,
          CIPHER_ALGO_BLOWFISH160,
          DIGEST_ALGO_RMD160,
          DIGEST_ALGO_MD5,
          show ((5 : Nat) = 14 ∧ (3 : Nat) = 35) = False from by simp,
          show ((3 : Nat) ≠ 4 ∧ (3 : Nat) ≠ 2 ∧ (3 : Nat) ≠ 3) = False from by simp,
          show ((3 : Nat) = 4) = False from by simp,
          show ((5 : Nat) = 5 ∨ (5 : Nat) = 7) = True from by simp,
          show ((5 : Nat) = 6 ∨ (5 : Nat) = 14) = False from by simp,
          show (is_ELGAMAL 1 = true) = False from by decide,
          show ((1 : Nat) = 17) = False from by simp,
          show (is_RSA 1 = true) = True from by decide,
          eq_false (show ¬ (pktlen - 1 < 11) from by omega),
          eq_true (show a ≠ 0 from by omega),
          show (a != 0) = true from by simpa using (show a ≠ 0 from by omega),
          readCounted_normal 8 (pktlen - 1 - 6 - 1 - n.length - e.length - 1) (iv ++ (xd ++ (xp ++ (xq ++ (xu ++ [c0, c1]))))) (by omega) (by simp [hiv]),
          List.take_left' hiv,
          List.drop_left' hiv,
          if_true,
          if_false,
          skip_rest_normal,
          List.drop_nil]
        try simp [hiv, fill8, S2K.clear, Protect.clear]
  · intro v t0 t1 t2 t3 c0 c1 pktlen hdrlen vd n e xd xp xq xu hv hvdb ht1 ht2 ht3 hc1 hn he hxd hxp hxq hxu hpl
    have hn2 := IsMpiEnc_length n hn
    have he2 := IsMpiEnc_length e he
    have hxd2 := IsMpiEnc_length xd hxd
    have hxp2 := IsMpiEnc_length xp hxp
    have hxq2 := IsMpiEnc_length xq hxq
    have hxu2 := IsMpiEnc_length xu hxu
    rcases hv with ⟨rfl, rfl⟩ | ⟨hv23, d0, d1, rfl⟩
    · simp only [List.length_nil] at hpl
      simp only [parse_certificate,
        iobuf_get_noeof_normal_cons,
        List.cons_append,
        List.nil_append,
        read_32_beVal' t0 t1 t2 t3 ht1 ht2 ht3,
        mpiStep_enc' n hn,
        mpiStep_enc' e he,
        mpiStep_enc' xd hxd,
        mpiStep_enc' xp hxp,
        mpiStep_enc' xq hxq,
        mpiStep_enc' xu hxu,
        read_16_beVal' c0 c1 hc1,
        PKT_SECRET_CERT,
        PKT_SECKEY_SUBCERT,
        PKT_PUBLIC_CERT,
        PKT_PUBKEY_SUBCERT,
        PUBKEY_ALGO_DSA,
        CIPHER_ALGO_BLOWFISH160,
        DIGEST_ALGO_RMD160,
        DIGEST_ALGO_MD5,
        show ((5 : Nat) = 14 ∧ (4 : Nat) = 35) = False from by simp,
        show ((4 : Nat) ≠ 4 ∧ (4 : Nat) ≠ 2 ∧ (4 : Nat) ≠ 3) = False from by simp,
        show ((4 : Nat) = 4) = True from by simp,
        show ((5 : Nat) = 5 ∨ (5 : Nat) = 7) = True from by simp,
        show ((5 : Nat) = 6 ∨ (5 : Nat) = 14) = False from by simp,
        show (is_ELGAMAL 1 = true) = False from by decide,
        show ((1 : Nat) = 17) = False from by simp,
        show (is_RSA 1 = true) = True from by decide,
        eq_false (show ¬ (pktlen - 1 < 11) from by omega),
        show ((0 : Nat) ≠ 0) = False from by simp,
        show ((0 : Nat) != 0) = false from by decide,
        if_true,
        if_false,
        skip_rest_normal,
        List.drop_nil]
      try simp [S2K.clear, Protect.clear]
    · have hd1 : d1 < 256 := hvdb d1 (by simp)
      simp only [List.length_cons, List.length_nil] at hpl
      rcases hv23 with rfl | rfl
      · simp only [parse_certificate,
          iobuf_get_noeof_normal_cons,
          List.cons_append,
          List.nil_append,
          read_32_beVal' t0 t1 t2 t3 ht1 ht2 ht3,
          read_16_beVal' d0 d1 hd1,
          mpiStep_enc' n hn,
          mpiStep_enc' e he,
          mpiStep_enc' xd hxd,
          mpiStep_enc' xp hxp,
          mpiStep_enc' xq hxq,
          mpiStep_enc' xu hxu,
          read_16_beVal' c0 c1 hc1,
          PKT_SECRET_CERT,
          PKT_SECKEY_SUBCERT,
          PKT_PUBLIC_CERT,
          PKT_PUBKEY_SUBCERT,
          PUBKEY_ALGO_DSA,
          CIPHER_ALGO_BLOWFISH160,
          DIGEST_ALGO_RMD160,
          DIGEST_ALGO_MD5,
          show ((5 : Nat) = 14 ∧ (2 : Nat) = 35) = False from by simp,
          show ((2 : Nat) ≠ 4 ∧ (2 : Nat) ≠ 2 ∧ (2 : Nat) ≠ 3) = False from by simp,
          show ((2 : Nat) = 4) = False from by simp,
          show ((5 : Nat) = 5 ∨ (5 : Nat) = 7) = True from by simp,
          show ((5 : Nat) = 6 ∨ (5 : Nat) = 14) = False from by simp,
          show (is_ELGAMAL 1 = true) = False from by decide,
          show ((1 : Nat) = 17) = False from by simp,
          show (is_RSA 1 = true) = True from by decide,
          eq_false (show ¬ (pktlen - 1 < 11) from by omega),
          show ((0 : Nat) ≠ 0) = False from by simp,
          show ((0 : Nat) != 0) = false from by decide,
          if_true,
          if_false,
          skip_rest_normal,
          List.drop_nil]
        try simp [S2K.clear, Protect.clear]
      · simp only [parse_certificate,
          iobuf_get_noeof_normal_cons,
          List.cons_append,
          List.nil_append,
          read_32_beVal' t0 t1 t2 t3 ht1 ht2 ht3,
          read_16_beVal' d0 d1 hd1,
          mpiStep_enc' n hn,
          mpiStep_enc' e he,
          mpiStep_enc' xd hxd,
          mpiStep_enc' xp hxp,
          mpiStep_enc' xq hxq,
          mpiStep_enc' xu hxu,
          read_16_beVal' c0 c1 hc1,
          PKT_SECRET_CERT,
          PKT_SECKEY_SUBCERT,
          PKT_PUBLIC_CERT,
          PKT_PUBKEY_SUBCERT,
          PUBKEY_ALGO_DSA,
          CIPHER_ALGO_BLOWFISH160,
          DIGEST_ALGO_RMD160,
          DIGEST_ALGO_MD5,
          show ((5 : Nat) = 14 ∧ (3 : Nat) = 35) = False from by simp,
          show ((3 : Nat) ≠ 4 ∧ (3 : Nat) ≠ 2 ∧ (3 : Nat) ≠ 3) = False from by simp,
          show ((3 : Nat) = 4) = False from by simp,
          show ((5 : Nat) = 5 ∨ (5 : Nat) = 7) = True from by simp,
          show ((5 : Nat) = 6 ∨ (5 : Nat) = 14) = False from by simp,
          show (is_ELGAMAL 1 = true) = False from by decide,
          show ((1 : Nat) = 17) = False from by simp,
          show (is_RSA 1 = true) = True from by decide,
          eq_false (show ¬ (pktlen - 1 < 11) from by omega),
          show ((0 : Nat) ≠ 0) = False from by simp,
          show ((0 : Nat) != 0) = false from by decide,
          if_true,
          if_false,
          skip_rest_normal,
          List.drop_nil]
        try simp [S2K.clear, Protect.clear]

/-- Witness for `c4_iv_storage_amended`: conjunct 1 at a concrete v4
ElGamal certificate with protection algorithm byte 1; the stored IV is the
8 stream bytes `[1, 2, 3, 4, 5, 6, 7, 8]`. -/
theorem c4_iv_storage_amended_witness :
    parse_certificate PKT_SECRET_CERT 25 2
      ⟨4 :: 0 :: 0 :: 0 :: 0 :: ([] ++ 16 :: ([0, 0] ++ ([0, 0] ++ ([0, 0] ++
        1 :: ([1, 2, 3, 4, 5, 6, 7, 8] ++ ([0, 0] ++ [0, 9])))))), .normal⟩ =
      ⟨0, .secret_cert ⟨beVal [0, 0, 0, 0], beVal [], 2, 4,
          16, true,
          ⟨1, ⟨0, (if 1 = CIPHER_ALGO_BLOWFISH160 then DIGEST_ALGO_RMD160
                   else DIGEST_ALGO_MD5), List.replicate 8 0, 0⟩,
           [1, 2, 3, 4, 5, 6, 7, 8]⟩,
          .elg (some (mpiVal [0, 0])) (some (mpiVal [0, 0])) (some (mpiVal [0, 0])),
          .elg (some (mpiVal [0, 0])), beVal [0, 9]⟩,
       ⟨[], .normal⟩⟩ :=
  c4_iv_storage_amended.1 4 0 0 0 0 1 0 9 25 2
    [] [0, 0] [0, 0] [0, 0] [1, 2, 3, 4, 5, 6, 7, 8] [0, 0]
    (Or.inl ⟨rfl, rfl⟩) (by simp) (by decide) (by decide) (by decide) (by decide)
    ⟨0, 0, [], rfl, rfl⟩ ⟨0, 0, [], rfl, rfl⟩ ⟨0, 0, [], rfl, rfl⟩
    ⟨0, 0, [], rfl, rfl⟩ rfl (by decide) (by decide) (by decide)

end

/-! ### Copy round-trip (C9) -/

/-- A header that decodes to a definite length: parsing consumes exactly
`hdr`, yields type `ty` and length `pktlen`, and leaves the source in
normal mode, whatever follows. -/
def DefHeader (hdr : List Nat) (ty pktlen : Nat) : Prop :=
  ∃ pg : Bool, ∀ t : List Nat,
    parseHeader ⟨hdr ++ t, .normal⟩ = .ok ⟨ty, pktlen, hdr, pg, ⟨t, .normal⟩⟩

theorem DefHeader_ne_nil (hdr : List Nat) (ty pktlen : Nat)
    (h : DefHeader hdr ty pktlen) : hdr ≠ [] := by
  obtain ⟨pg, hp⟩ := h
  intro he
  subst he
  have := hp []
  simp [parseHeader] at this

/-- The packet types the dispatcher knows. -/
def KnownType (ty : Nat) : Prop :=
  ty ∈ [1, 2, 3, 4, 5, 6, 7, 8, 9, 11, 12, 13, 14, 16, 61]

/-- A stream of well-formed definite-length packets with known nonzero
type tags: each packet is a definite-length header followed by exactly
`pktlen` body bytes (and a zero-length compressed packet, whose copy mode
would consume the whole remaining stream, does not occur). -/
inductive WFStream : List Nat → Prop where
  | nil : WFStream []
  | cons (hdr body rest : List Nat) (ty pktlen : Nat) :
      DefHeader hdr ty pktlen → KnownType ty → ty ≠ 0 →
      ¬(pktlen = 0 ∧ ty = PKT_COMPRESSED) →
      body.length = pktlen → WFStream rest →
      WFStream (hdr ++ (body ++ rest))

/-- The definite-length copy loop transfers exactly the packet body. -/
theorem copy_packet_loop_normal :
    ∀ (pktlen : Nat) (body rest out : List Nat), body.length = pktlen →
      copy_packet_loop ⟨body ++ rest, .normal⟩ out pktlen =
        (0, ⟨rest, .normal⟩, out ++ body) := by
  intro pktlen
  induction pktlen using Nat.strong_induction_on with
  | _ pktlen ih =>
    intro body rest out hlen
    rw [copy_packet_loop]
    by_cases h0 : pktlen = 0
    · subst h0
      have hb : body = [] := List.eq_nil_of_length_eq_zero hlen
      subst hb
      simp
    · simp only [h0, dite_false]
      rw [iobuf_read_normal]
      obtain ⟨k, hk⟩ : ∃ k, min pktlen 100 = k + 1 := by
        refine ⟨min pktlen 100 - 1, ?_⟩
        omega
      have hkle : k + 1 ≤ body.length := by
        rw [hlen]
        omega
      have hmin : min (min pktlen 100) (body ++ rest).length = k + 1 := by
        simp only [List.length_append]
        omega
      rw [hmin, hk]
      have hsplit : body = body.take (k + 1) ++ body.drop (k + 1) :=
        (List.take_append_drop (k + 1) body).symm
      have htake : (body ++ rest).take (k + 1) = body.take (k + 1) := by
        conv in body ++ rest => rw [hsplit]
        rw [List.append_assoc]
        exact List.take_left' (by simp; omega)
      have hdrop : (body ++ rest).drop (k + 1) = body.drop (k + 1) ++ rest := by
        conv in body ++ rest => rw [hsplit]
        rw [List.append_assoc]
        exact List.drop_left' (by simp; omega)
      rw [htake, hdrop]
      simp only [ih (pktlen - (k + 1)) (by omega) (body.drop (k + 1)) rest
        (out ++ body.take (k + 1)) (by simp [hlen]), List.append_assoc,
        List.take_append_drop]

/-- One step of copy-mode `parse` on a well-formed packet: the captured
header bytes and the body go to the sink verbatim. -/
theorem parse_copy_step (hdr body rest out : List Nat) (ty pktlen : Nat)
    (hh : DefHeader hdr ty pktlen) (hty : ty ≠ 0)
    (hcomp : ¬(pktlen = 0 ∧ ty = PKT_COMPRESSED))
    (hlen : body.length = pktlen) :
    parse ⟨hdr ++ (body ++ rest), .normal⟩ 0 (some out) false =
      ⟨0, none, false, ⟨rest, .normal⟩, (out ++ hdr) ++ body⟩ := by
  obtain ⟨pg, hp⟩ := hh
  simp only [parse, hp (body ++ rest), Option.isSome_some, Option.getD_some,
    ne_eq, hty, not_false_iff, true_and, if_true]
  simp only [copy_packet, iobuf_in_block_mode_normal, Bool.false_eq_true,
    if_false, hcomp, copy_packet_loop_normal pktlen body rest (out ++ hdr) hlen]

theorem copy_all_loop_wf (s : List Nat) (hwf : WFStream s) :
    ∀ (fuel : Nat) (out : List Nat), s.length < fuel →
      copy_all_loop fuel ⟨s, .normal⟩ out = (-1, ⟨[], .normal⟩, out ++ s) := by
  induction hwf with
  | nil =>
    intro fuel out hf
    match fuel with
    | f + 1 =>
      simp [copy_all_loop, parse, parseHeader]
  | cons hdr body rest ty pktlen hh hk hty hcomp hlen hrest ih =>
    intro fuel out hf
    have hne : hdr ≠ [] := DefHeader_ne_nil hdr ty pktlen hh
    have hlen1 : 1 ≤ hdr.length := by
      cases hdr with
      | nil => exact absurd rfl hne
      | cons a l => simp
    match fuel with
    | f + 1 =>
      rw [show copy_all_loop (f + 1) ⟨hdr ++ (body ++ rest), .normal⟩ out =
        (let r := parse ⟨hdr ++ (body ++ rest), .normal⟩ 0 (some out) false
         if r.rc = 0 then copy_all_loop f r.src r.out
         else (r.rc, r.src, r.out)) from rfl]
      rw [parse_copy_step hdr body rest out ty pktlen hh hty hcomp hlen]
      simp only [if_true]
      rw [ih f ((out ++ hdr) ++ body) (by simp at hf ⊢; omega)]
      simp [List.append_assoc]

/-- C9: for every stream of well-formed definite-length packets with known
nonzero type tags, `copy_all_packets` terminates with -1 (end of stream)
having written exactly the input bytes to the sink, so parsing its output
yields the same sequence of packet records as parsing the input. -/
theorem c9_copy_all_roundtrip (s : List Nat) (hwf : WFStream s) :
    copy_all_packets ⟨s, .normal⟩ = (-1, ⟨[], .normal⟩, s) ∧
    parse_all ⟨(copy_all_packets ⟨s, .normal⟩).2.2, .normal⟩ =
      parse_all ⟨s, .normal⟩ := by
  have h := copy_all_loop_wf s hwf (s.length + 1) [] (by omega)
  have h1 : copy_all_packets ⟨s, .normal⟩ = (-1, ⟨[], .normal⟩, s) := by
    simpa [copy_all_packets] using h
  exact ⟨h1, by rw [h1]⟩

/-- C9 witness: a single legacy user-id packet `B4 02 41 42`. -/
theorem c9_copy_all_roundtrip_witness :
    copy_all_packets ⟨[0xB4, 2, 65, 66], .normal⟩ =
      (-1, ⟨[], .normal⟩, [0xB4, 2, 65, 66]) ∧
    parse_all ⟨(copy_all_packets ⟨[0xB4, 2, 65, 66], .normal⟩).2.2, .normal⟩ =
      parse_all ⟨[0xB4, 2, 65, 66], .normal⟩ :=
  c9_copy_all_roundtrip [0xB4, 2, 65, 66]
    (by
      have hsplit : ([0xB4, 2, 65, 66] : List Nat) =
          [0xB4, 2] ++ ([65, 66] ++ []) := rfl
      rw [hsplit]
      exact WFStream.cons [0xB4, 2] [65, 66] [] 13 2
        ⟨false, by
          intro t
          simp [parseHeader, legacyLenLoop,
            show (180 &&& 128 : Nat) = 128 from by decide,
            show (180 &&& 64 : Nat) = 0 from by decide,
            show (180 &&& 3 : Nat) = 0 from by decide,
            show (45 &&& 15 : Nat) = 13 from by decide]⟩
        (by simp [KnownType]) (by decide) (by decide) rfl
        WFStream.nil)

end GnuPG
